import Mathlib

/-!
Verification development for the content-extraction core of pyDigestor
(src/pydigestor/sources/extraction.py).

The Python module is shallowly embedded: every method of `ContentExtractor`
and `PatternRegistry` that the claims touch is translated into an executable
Lean definition.  External libraries (httpx, BeautifulSoup, trafilatura,
newspaper3k, pdfplumber, json) are modelled as oracles collected in an `Env`
structure; each modelled network request and each strategy invocation is
recorded in an effect list so that statements about "zero network requests"
or "the generic chain is consulted" are statements about the effect log.

Python exceptions are modelled by the `PyExc` type and the `Except` monad;
a `try/except` block in the source becomes a `match` on the `Except` value.
Mutable extractor state (the failure cache and the metrics dictionary) is
threaded explicitly through `extract`.
-/

set_option maxRecDepth 100000

namespace PyDigestor

/-- Python exception values that the modelled code can raise or catch. -/
inductive PyExc where
  | valueError (msg : String)
  | nameError (missing : String)
  | keyError (key : String)
  | connectError (msg : String)
  | httpError (msg : String)
  | timeoutError (msg : String)
  | other (msg : String)
deriving Repr, DecidableEq

/-- Observable effects of a call: network requests (with the TLS-verification
flag of the attempt) and invocations of extraction strategies. -/
inductive Effect where
  | netRequest (url : String) (verify : Bool)
  | handlerCall (patternName : String) (url : String)
  | pdfRun (url : String)
  | trafilaturaRun (url : String)
  | newspaperRun (url : String)
deriving Repr, DecidableEq

/-- Boolean test: the effect is a network request. -/
def Effect.isNet : Effect → Bool
  | .netRequest _ _ => true
  | _ => false

/-- Boolean test: the effect is a pattern-handler invocation. -/
def Effect.isHandlerCall : Effect → Bool
  | .handlerCall _ _ => true
  | _ => false

/-- Boolean test: the effect is the invocation of some extraction strategy
(pattern handler, PDF extraction, trafilatura, or newspaper3k). -/
def Effect.isStrategyRun : Effect → Bool
  | .handlerCall _ _ => true
  | .pdfRun _ => true
  | .trafilaturaRun _ => true
  | .newspaperRun _ => true
  | _ => false

/-- The pattern-handler invocations recorded in an effect list. -/
def handlerCalls (fx : List Effect) : List (String × String) :=
  fx.filterMap fun e =>
    match e with
    | .handlerCall n u => some (n, u)
    | _ => none

/-- Does the first list occur as a prefix of the second? -/
def prefixMatch : List Char → List Char → Bool
  | [], _ => true
  | _ :: _, [] => false
  | a :: as, b :: bs => a = b && prefixMatch as bs

/-- Does the first list occur as a contiguous sublist of the second? -/
def infixMatch (pat : List Char) : List Char → Bool
  | [] => pat.isEmpty
  | c :: rest => prefixMatch pat (c :: rest) || infixMatch pat rest

/-- Python substring test `pat in s`. -/
def strIn (pat s : String) : Bool :=
  infixMatch pat.toList s.toList

/-!  The remaining Python string primitives are implemented on `List Char`
(a Python `str` is a sequence of code points) by structural recursion, so
that every definition in this file evaluates by kernel reduction. -/

/-- Python `s.lower()`, restricted to ASCII case mapping. -/
def sLower (s : String) : String := String.mk (s.toList.map Char.toLower)

/-- Python `s.startswith(p)`. -/
def sStartsWith (s p : String) : Bool := prefixMatch p.toList s.toList

/-- Python `s.endswith(p)`. -/
def sEndsWith (s p : String) : Bool := prefixMatch p.toList.reverse s.toList.reverse

/-- Python `s[n:]`. -/
def sDrop (s : String) (n : Nat) : String := String.mk (s.toList.drop n)

/-- Python `len(s)`: the number of code points. -/
def sLength (s : String) : Nat := s.toList.length

/-- The characters Python `str.strip()` removes. -/
def pySpaceChar (c : Char) : Bool :=
  c = ' ' || c = '\t' || c = '\n' || c = '\r' || c = '\x0b' || c = '\x0c'

/-- Python `s.strip()`. -/
def pyStrip (s : String) : String :=
  String.mk (((s.toList.dropWhile pySpaceChar).reverse.dropWhile pySpaceChar).reverse)

/-- Split a character list at every occurrence of the separator. -/
def splitOnCharL (sep : Char) : List Char → List (List Char)
  | [] => [[]]
  | c :: rest =>
    let r := splitOnCharL sep rest
    if c = sep then [] :: r
    else
      match r with
      | [] => [[c]]
      | h :: t => (c :: h) :: t

/-- Python `s.split(sep)` for a one-character separator. -/
def sSplitChar (s : String) (sep : Char) : List String :=
  (splitOnCharL sep s.toList).map String.mk

/-- Replace every occurrence of a nonempty pattern, scanning left to right.
Structural recursion on a fuel counter that starts at the length of the
scanned list; each step consumes at least one character, so the fuel never
runs out on the intended calls.  (The degenerate empty pattern never occurs
in the source; it is mapped to the identity here.) -/
def replaceAllGo (pat repl : List Char) : Nat → List Char → List Char
  | _, [] => []
  | 0, s => s
  | fuel + 1, c :: rest =>
    if pat.isEmpty then c :: rest
    else if prefixMatch pat (c :: rest) then
      repl ++ replaceAllGo pat repl fuel (rest.drop (pat.length - 1))
    else c :: replaceAllGo pat repl fuel rest

/-- Python `s.replace(pat, repl)` on strings. -/
def sReplaceAll (s pat repl : String) : String :=
  String.mk (replaceAllGo pat.toList repl.toList s.toList.length s.toList)

/-- One-occurrence replacement on character lists (nonempty pattern). -/
def replaceFirstL (pat repl : List Char) : List Char → List Char
  | [] => []
  | c :: rest =>
    if pat.isEmpty then c :: rest
    else if prefixMatch pat (c :: rest) then repl ++ (c :: rest).drop pat.length
    else c :: replaceFirstL pat repl rest

/-- Python `s.replace(pat, repl, 1)`: replace only the first occurrence. -/
def replaceFirst (s pat repl : String) : String :=
  String.mk (replaceFirstL pat.toList repl.toList s.toList)

/-!  ## URL parsing (urllib.parse.urlparse)

The source calls `urlparse` in `ExtractionPattern.matches`, `_is_lemmy_url`,
`_extract_lemmy_destination`, `_extract_github` and `_classify_medium_url`.
The model follows CPython urlsplit for the three fields the source reads
(scheme, netloc, path): tab/CR/LF bytes are removed, the scheme is split off
when the text before the first colon is a valid scheme, the authority is the
segment after a leading "//" up to the first "/", "?" or "#", and the path
is what remains with query and fragment cut off.  CPython raises ValueError
for an authority with mismatched square brackets, and also for balanced
brackets enclosing an invalid host; the model conservatively raises for any
authority containing a bracket, which agrees with CPython on every URL whose
authority is bracket-free and on the mismatched-bracket inputs used below. -/

/-- Fields of the parse result that the source reads. -/
structure UrlParts where
  scheme : String
  netloc : String
  path : String
deriving Repr, DecidableEq

/-- Characters allowed in a URL scheme (letters, digits, `+`, `-`, `.`). -/
def schemeChar (c : Char) : Bool :=
  c.isAlpha || c.isDigit || c = '+' || c = '-' || c = '.'

/-- Model of `urllib.parse.urlparse`, restricted to scheme, netloc and path. -/
def pyUrlparse (url : String) : Except PyExc UrlParts :=
  let cs := url.toList.filter (fun c => c != '\t' && c != '\r' && c != '\n')
  let pre := cs.takeWhile (fun c => c != ':')
  let hasScheme :=
    decide (pre.length < cs.length) && !pre.isEmpty &&
    (match pre.head? with
     | some c0 => c0.isAlpha
     | none => false) &&
    pre.all schemeChar
  let scheme := if hasScheme then sLower (String.mk pre) else ""
  let rest := if hasScheme then cs.drop (pre.length + 1) else cs
  match rest with
  | '/' :: '/' :: tail =>
    let nl := tail.takeWhile (fun c => c != '/' && c != '?' && c != '#')
    if nl.contains '[' || nl.contains ']' then
      .error (.valueError "Invalid IPv6 URL")
    else
      let rest2 := tail.drop nl.length
      .ok ⟨scheme, String.mk nl,
           String.mk ((rest2.takeWhile (fun c => c != '#')).takeWhile (fun c => c != '?'))⟩
  | other =>
    .ok ⟨scheme, "",
         String.mk ((other.takeWhile (fun c => c != '#')).takeWhile (fun c => c != '?'))⟩

/-- Decidable equality for `Except`, needed so that closed statements about
modelled results can be settled by `decide`. -/
instance {ε α : Type} [DecidableEq ε] [DecidableEq α] :
    DecidableEq (Except ε α) := fun a b =>
  match a, b with
  | .ok x, .ok y =>
    if h : x = y then .isTrue (by rw [h]) else .isFalse (by intro hc; cases hc; exact h rfl)
  | .error x, .error y =>
    if h : x = y then .isTrue (by rw [h]) else .isFalse (by intro hc; cases hc; exact h rfl)
  | .ok _, .error _ => .isFalse (by intro hc; cases hc)
  | .error _, .ok _ => .isFalse (by intro hc; cases hc)

/-!  ## External-library oracles -/

/-- What the Lemmy read API yields when `response.json()` is interpreted
(source lines 716-726): a ValueError/KeyError while parsing, a parse with no
usable destination, or a destination URL string. -/
inductive LemmyApiOutcome where
  | jsonError (msg : String)
  | noUrl
  | url (u : String)
deriving Repr, DecidableEq

/-- An httpx response, restricted to the fields the source reads.
`httpStatusError` is the outcome of `response.raise_for_status()`;
`pdfDoc` is the outcome of opening `response.content` with pdfplumber and
calling `extract_text` on each page (`none` entries are pages that yielded
no text); `lemmyApi` is the interpretation of `response.json()` on the
Lemmy API path. -/
structure HttpResponse where
  httpStatusError : Option String
  text : String
  contentType : String
  finalUrl : String
  lemmyApi : LemmyApiOutcome
  pdfDoc : Except String (List (Option String))
deriving Repr, DecidableEq

/-- Oracles for every external library call the source makes.  `httpGet url
verify` is one `httpx.get` attempt; the `soup…` and `gh…` fields are
BeautifulSoup lookups on an HTML string (returning the text or attribute the
source reads); `jsonLdBodies` lists the `articleBody` candidates found in
JSON-LD script tags in order; `trafilaturaCore` is `trafilatura.extract` on
the sanitized HTML; `newspaperFromHtml` is `set_html` + `parse` + `.text`;
`newspaperDownloadRes` is `download` + `parse`, yielding `(text, article.url)`;
`externalHandler` runs a plugin-registered pattern handler. -/
structure Env where
  httpGet : String → Bool → Except PyExc HttpResponse
  soupExternalLink : String → Option String
  soupOgUrl : String → Option String
  soupPostBodyLink : String → Option String
  soupCanonicalHref : String → Option String
  ghReadmeArticle : String → Option String
  ghReadmeDiv : String → Option String
  ghIssueTitle : String → Option String
  ghIssueBody : String → Option String
  ghReleaseBody : String → Option String
  jsonLdBodies : String → List String
  trafilaturaCore : String → Except PyExc (Option String)
  newspaperFromHtml : String → Except PyExc String
  newspaperDownloadRes : String → Except PyExc (String × String)
  externalHandler : Nat → String → Except PyExc (Option String)

/-!  ## Data model: patterns, registry, metrics, extractor state -/

/-- Identifies the handler bound to a pattern: one of the two built-ins or an
externally registered plugin handler. -/
inductive HandlerId where
  | pdfPat
  | githubPat
  | external (k : Nat)
deriving Repr, DecidableEq

/-- `ExtractionPattern` (source lines 38-54). -/
structure ExtractionPattern where
  name : String
  domains : List String
  handler : HandlerId
  priority : Int
deriving Repr, DecidableEq

/-- `ExtractionPattern.matches` (source lines 46-54): the URL parse can raise
for a malformed URL, hence the `Except` result. -/
def ExtractionPattern.matchesE (p : ExtractionPattern) (url : String) :
    Except PyExc Bool := do
  let parsed ← pyUrlparse url
  let domain := sReplaceAll (sLower parsed.netloc) "www." ""
  pure (p.domains.any fun pat => strIn pat domain || strIn pat (sLower url))

/-- Stable insertion of a pattern into a priority-descending list: the new
element goes after every element of strictly higher or equal priority that
is already placed before the insertion point reached first.  Used to model
`list.sort(key=priority, reverse=True)`, which is a stable sort. -/
def insertByPriority (p : ExtractionPattern) :
    List ExtractionPattern → List ExtractionPattern
  | [] => [p]
  | q :: qs =>
    if q.priority > p.priority then q :: insertByPriority p qs
    else p :: q :: qs

/-- Stable descending sort by priority (model of Python `sort(..., reverse=True)`,
which keeps equal elements in their original order). -/
def sortByPriorityDesc (l : List ExtractionPattern) : List ExtractionPattern :=
  l.foldr insertByPriority []

/-- `PatternRegistry.register` (source lines 63-67): append, then re-sort
descending by priority with a stable sort. -/
def registerPattern (ps : List ExtractionPattern) (p : ExtractionPattern) :
    List ExtractionPattern :=
  sortByPriorityDesc (ps ++ [p])

/-- `PatternRegistry.get_handler` (source lines 69-78): first pattern in
sorted order whose matcher succeeds; the matcher can raise on a malformed
URL, and that exception propagates. -/
def getHandlerE (ps : List ExtractionPattern) (url : String) :
    Except PyExc (Option (String × HandlerId)) :=
  match ps with
  | [] => .ok none
  | p :: rest =>
    match p.matchesE url with
    | .error e => .error e
    | .ok true => .ok (some (p.name, p.handler))
    | .ok false => getHandlerE rest url

/-- The metrics dictionary (source lines 100-107).  `patternExtractions` is
`some` when the `"pattern_extractions"` key is present (as after `__init__`)
and `none` when it is absent (as after `reset_metrics`, source lines
1005-1013); reading the absent key raises KeyError. -/
structure Metrics where
  totalAttempts : Nat
  trafilaturaSuccess : Nat
  newspaperSuccess : Nat
  failures : Nat
  cachedFailures : Nat
  patternExtractions : Option (List (String × Nat))
deriving Repr, DecidableEq

/-- Mutable extractor state: the failure cache (a set, modelled by a list
queried by membership), the metrics dictionary, and the pattern registry. -/
structure St where
  failedUrls : List String
  metrics : Metrics
  registry : List ExtractionPattern
deriving Repr, DecidableEq

/-- The two built-in patterns registered by `_register_patterns`
(source lines 111-128). -/
def pdfPattern : ExtractionPattern := ⟨"pdf", [".pdf", "/pdf/"], .pdfPat, 10⟩

/-- The GitHub built-in pattern (source lines 123-128). -/
def githubPattern : ExtractionPattern := ⟨"github", ["github.com"], .githubPat, 5⟩

/-- The registry after `__init__` has run `_register_patterns`. -/
def defaultRegistry : List ExtractionPattern :=
  registerPattern (registerPattern [] pdfPattern) githubPattern

/-- Metrics as initialised in `__init__` (the `"pattern_extractions"` key is
present and empty). -/
def initialMetrics : Metrics := ⟨0, 0, 0, 0, 0, some []⟩

/-- Extractor state straight after construction. -/
def initSt : St := ⟨[], initialMetrics, defaultRegistry⟩

/-- `reset_metrics` (source lines 1005-1013): the fresh dictionary lacks the
`"pattern_extractions"` key. -/
def resetMetrics (s : St) : St :=
  { s with metrics := ⟨0, 0, 0, 0, 0, none⟩ }

/-- Python `dict` update performed at source lines 310-312 once the key is
known to be present: insert 0 if absent, then add 1. -/
def bumpCount (k : String) : List (String × Nat) → List (String × Nat)
  | [] => [(k, 1)]
  | (a, n) :: rest =>
    if a = k then (a, n + 1) :: rest else (a, n) :: bumpCount k rest

/-!  ## HTTP layer -/

/-- Is this exception an `httpx.ConnectError` whose message mentions SSL or
certificates?  Mirrors the test at source line 152. -/
def isSslRetryable : PyExc → Bool
  | .connectError msg => strIn "SSL" msg || strIn "CERTIFICATE" msg
  | _ => false

/-- `_http_get_with_ssl_fallback` (source lines 130-162): one TLS-verified
attempt; on an `httpx.ConnectError` whose text contains "SSL" or
"CERTIFICATE", exactly one retry with verification disabled whose outcome is
final; every other failure propagates unchanged. -/
def httpGetWithSslFallback (env : Env) (url : String) :
    Except PyExc HttpResponse × List Effect :=
  match env.httpGet url true with
  | .ok r => (.ok r, [.netRequest url true])
  | .error e =>
    if isSslRetryable e then
      match env.httpGet url false with
      | .ok r => (.ok r, [.netRequest url true, .netRequest url false])
      | .error e2 => (.error e2, [.netRequest url true, .netRequest url false])
    else
      (.error e, [.netRequest url true])

/-!  ## URL classification and rewriting -/

/-- `_is_pdf_url` (source lines 357-367). -/
def isPdfUrl (url : String) : Bool :=
  sEndsWith (sLower url) ".pdf" || strIn "/pdf/" (sLower url)

/-- Known Lemmy instances (source lines 27-35). -/
def LEMMY_INSTANCES : List String :=
  ["infosec.pub", "lemmy.world", "lemmy.ml", "beehaw.org",
   "lemmy.one", "programming.dev", "sh.itjust.works"]

/-- `_is_lemmy_url` (source lines 650-667): known instance hostname (with a
`www.` prefix stripped) or a `/post/` segment in the path.  The URL parse
can raise, and at the call site in `extract` (line 284) that exception is
not caught. -/
def isLemmyUrlE (url : String) : Except PyExc Bool := do
  let parsed ← pyUrlparse url
  let domain := sLower parsed.netloc
  let domain := if sStartsWith domain "www." then sDrop domain 4 else domain
  pure (LEMMY_INSTANCES.contains domain || strIn "/post/" parsed.path)

/-- The capture of `re.match(r"https?://arxiv\.org/abs/(\d+\.\d+)", url)`
(source lines 382-384): the regex is anchored at the start only, `\d+` is a
maximal digit run (no backtracking can help because a digit is never a dot),
and the rest of the URL after the captured group is ignored. -/
def arxivAbsId (url : String) : Option String :=
  let rest? :=
    if sStartsWith url "https://arxiv.org/abs/" then
      some (sDrop url "https://arxiv.org/abs/".length)
    else if sStartsWith url "http://arxiv.org/abs/" then
      some (sDrop url "http://arxiv.org/abs/".length)
    else none
  match rest? with
  | none => none
  | some rest =>
    let cs := rest.toList
    let d1 := cs.takeWhile Char.isDigit
    if d1.isEmpty then none
    else
      match cs.drop d1.length with
      | '.' :: rest2 =>
        let d2 := rest2.takeWhile Char.isDigit
        if d2.isEmpty then none
        else some (String.mk d1 ++ "." ++ String.mk d2)
      | _ => none

/-- `_convert_arxiv_to_pdf` (source lines 369-392): a pure string rewrite,
no network access. -/
def convertArxivToPdf (url : String) : String :=
  match arxivAbsId url with
  | some paperId => "https://arxiv.org/pdf/" ++ paperId ++ ".pdf"
  | none => url

/-!  ## PDF extraction -/

/-- `_extract_pdf` (source lines 394-458).  The whole body is inside a
`try` whose handlers all return `None`, so the function never raises; the
effect list records the strategy run and the download attempts.  Validation
at lines 443-445 rejects only text whose trimmed length is strictly below
500 characters. -/
def extractPdf (env : Env) (url : String) : Option String × List Effect :=
  let hr := httpGetWithSslFallback env url
  let fx := Effect.pdfRun url :: hr.2
  match hr.1 with
  | .error _ => (none, fx)
  | .ok resp =>
    match resp.httpStatusError with
    | some _ => (none, fx)
    | none =>
      let contentType := sLower resp.contentType
      if !strIn "pdf" contentType && !sEndsWith url ".pdf" then (none, fx)
      else
        match resp.pdfDoc with
        | .error _ => (none, fx)
        | .ok pages =>
          let textParts := (pages.filterMap id).filter (fun t => t ≠ "")
          let fullText := String.intercalate "\n" textParts
          if sLength (pyStrip fullText) < 500 then (none, fx)
          else (some (pyStrip fullText), fx)

/-!  ## GitHub extraction -/

/-- `_extract_github` (source lines 176-263).  The body is inside a `try`
returning `None` on any exception.  Content fragments are collected in
order: README article, README div (only when the article found nothing),
issue/PR title, issue/PR body, release notes (only when `"releases"` occurs
in the URL); the combined text must trim-exceed 100 characters. -/
def extractGithub (env : Env) (url : String) : Option String × List Effect :=
  let hr := httpGetWithSslFallback env url
  let fx := hr.2
  match hr.1 with
  | .error _ => (none, fx)
  | .ok resp =>
    match resp.httpStatusError with
    | some _ => (none, fx)
    | none =>
      let html := resp.text
      match pyUrlparse url with
      | .error _ => (none, fx)
      | .ok parsed =>
        let pathParts := sSplitChar parsed.path '/'
        let contentParts : List String :=
          if pathParts.length ≥ 3 then
            let p1 := match env.ghReadmeArticle html with
              | some t => [t]
              | none => []
            let p2 := match env.ghReadmeDiv html with
              | some t => if p1 = [] then [t] else []
              | none => []
            let p3 := match env.ghIssueTitle html with
              | some t => ["# " ++ t]
              | none => []
            let p4 := match env.ghIssueBody html with
              | some t => [t]
              | none => []
            let p5 := match env.ghReleaseBody html with
              | some t => if strIn "releases" url then [t] else []
              | none => []
            p1 ++ p2 ++ p3 ++ p4 ++ p5
          else []
        if contentParts ≠ [] then
          let combined := String.intercalate "\n\n" contentParts
          if sLength (pyStrip combined) > 100 then (some (pyStrip combined), fx)
          else (none, fx)
        else (none, fx)

/-!  ## Lemmy destination resolution -/

/-- The post-id scan of source lines 685-690: the first path segment equal
to `"post"` that has a successor yields that successor. -/
def findPostId : List String → Option String
  | [] => none
  | [_] => none
  | "post" :: b :: _ => some b
  | _ :: rest => findPostId rest

/-- Source lines 756-767: the post-body link lookup of the HTML fallback. -/
def lemmyScrapeBody (env : Env) (html : String) (fx : List Effect) :
    Except PyExc (Option String) × List Effect :=
  match env.soupPostBodyLink html with
  | some linkUrl =>
    match isLemmyUrlE linkUrl with
    | .error e => (.error e, fx)
    | .ok true => (.ok none, fx)
    | .ok false =>
      if sStartsWith linkUrl "http" then (.ok (some linkUrl), fx)
      else (.ok none, fx)
  | none => (.ok none, fx)

/-- Source lines 747-767: the og:url and post-body lookups of the HTML
fallback (split out of `lemmyHtmlScrape` for readability). -/
def lemmyScrapeMeta (env : Env) (html : String) (fx : List Effect) :
    Except PyExc (Option String) × List Effect :=
  match env.soupOgUrl html with
  | some contentUrl =>
    if contentUrl ≠ "" then
      match isLemmyUrlE contentUrl with
      | .error e => (.error e, fx)
      | .ok true => lemmyScrapeBody env html fx
      | .ok false => (.ok (some contentUrl), fx)
    else lemmyScrapeBody env html fx
  | none => lemmyScrapeBody env html fx

/-- The HTML-scraping fallback as written at source lines 733-767: fetch the
post page, then look for an external-link anchor, then an og:url meta tag
that is not itself a Lemmy URL, then the first http link in the post body.
This code is unreachable in `_extract_lemmy_destination` because line 732
evaluates the unbound name `headers` first (see `lemmyDestination`); it is
modelled separately to state what the fallback would return if it ran. -/
def lemmyHtmlScrape (env : Env) (url : String) :
    Except PyExc (Option String) × List Effect :=
  let hr := httpGetWithSslFallback env url
  let fx := hr.2
  match hr.1 with
  | .error e => (.error e, fx)
  | .ok resp =>
    match resp.httpStatusError with
    | some m => (.error (.httpError m), fx)
    | none =>
      let html := resp.text
      match env.soupExternalLink html with
      | some href =>
        if href ≠ "" then (.ok (some href), fx)
        else (lemmyScrapeMeta env html fx)
      | none => (lemmyScrapeMeta env html fx)

/-- `_extract_lemmy_destination` (source lines 669-771).  The whole body is
inside a `try` whose handler returns `None`.  The API path (lines 696-729)
runs first; any of its failures falls through to line 732, which reads the
name `headers` — bound nowhere in this method (the API branch defines only
`api_headers`) — so a NameError is raised before the fallback request is
issued and the outer handler at line 769 turns it into `None`.  The
scraping code of lines 733-767 (modelled by `lemmyHtmlScrape`) is
unreachable. -/
def lemmyDestination (env : Env) (url : String) : Option String × List Effect :=
  match pyUrlparse url with
  | .error _ => (none, [])
  | .ok parsed =>
    let pathParts := sSplitChar parsed.path '/'
    let postId :=
      match findPostId pathParts with
      | some p => if p = "" then none else some p
      | none => none
    match postId with
    | none => (none, [])
    | some pid =>
      let apiUrl :=
        parsed.scheme ++ "://" ++ parsed.netloc ++ "/api/v3/post?id=" ++ pid
      let hr := httpGetWithSslFallback env apiUrl
      let fx1 := hr.2
      let apiDest : Option String :=
        match hr.1 with
        | .error _ => none
        | .ok resp =>
          match resp.httpStatusError with
          | some _ => none
          | none =>
            match resp.lemmyApi with
            | .url u =>
              if u = "" then none
              else
                match isLemmyUrlE u with
                | .ok false => some u
                | _ => none
            | _ => none
      match apiDest with
      | some u => (some u, fx1)
      | none =>
        -- Line 732 evaluates `headers`, raising NameError before the HTML
        -- request; the handler at line 769 yields None.
        (none, fx1)

/-!  ## Medium helpers and the generic extraction chain -/

/-- `_sanitize_html` (source lines 867-894): drop NUL bytes, then keep only
characters with code at least 0x20 plus newline, carriage return and tab. -/
def sanitizeHtml (html : String) : String :=
  let html := String.mk (html.toList.filter (fun c => c != '\x00'))
  String.mk (html.toList.filter
    (fun c => c.toNat ≥ 0x20 || c = '\n' || c = '\r' || c = '\t'))

/-- `_resolve_medium_canonical` (source lines 528-567): fetch the page and
read a canonical link, falling back to og:url, falling back to the original
URL; on any exception return the original URL with no HTML. -/
def resolveMediumCanonical (env : Env) (url : String) :
    (String × Option String) × List Effect :=
  let hr := httpGetWithSslFallback env url
  let fx := hr.2
  match hr.1 with
  | .error _ => ((url, none), fx)
  | .ok resp =>
    match resp.httpStatusError with
    | some _ => ((url, none), fx)
    | none =>
      let html := resp.text
      match env.soupCanonicalHref html with
      | some c =>
        if c ≠ "" then ((c, some html), fx)
        else
          match env.soupOgUrl html with
          | some o => if o ≠ "" then ((o, some html), fx) else ((url, some html), fx)
          | none => ((url, some html), fx)
      | none =>
        match env.soupOgUrl html with
        | some o => if o ≠ "" then ((o, some html), fx) else ((url, some html), fx)
        | none => ((url, some html), fx)

/-- `_classify_medium_url` (source lines 569-590).  The parse can raise; at
both call sites the surrounding `try` catches it. -/
def classifyMediumUrl (url : String) : Except PyExc String := do
  let parsed ← pyUrlparse url
  if sStartsWith parsed.path "/p/" then pure "short"
  else if sEndsWith parsed.netloc ".medium.com" && parsed.netloc ≠ "medium.com" then
    pure "subdomain"
  else pure "standard"

/-- `_prepare_medium_url` (source lines 592-610): rewrite only "standard"
URLs to the `/m/` endpoint (first occurrence only). -/
def prepareMediumUrl (url urlType : String) : String :=
  if urlType = "standard" then replaceFirst url "medium.com/" "medium.com/m/"
  else url

/-- `_extract_from_json_ld` (source lines 612-648): first `articleBody`
whose trimmed length exceeds 100 characters. -/
def extractFromJsonLd (env : Env) (html : String) : Option String :=
  (env.jsonLdBodies html).findSome? fun body =>
    if body ≠ "" && sLength (pyStrip body) > 100 then some (pyStrip body) else none

/-- Source lines 833-855: sanitize the HTML, run trafilatura and validate
(trimmed length strictly above 100).  A raise inside `trafilatura.extract`
is caught by the handler at line 863, which returns `(None, url)` with the
original URL rather than the final URL. -/
def trafFinish (env : Env) (html finalUrl origUrl : String) :
    Option String × String :=
  let sanitized := sanitizeHtml html
  match env.trafilaturaCore sanitized with
  | .error _ => (none, origUrl)
  | .ok contentOpt =>
    match contentOpt with
    | some content =>
      if content ≠ "" && sLength (pyStrip content) > 100 then
        (some (pyStrip content), finalUrl)
      else (none, finalUrl)
    | none => (none, finalUrl)

/-- The late fetch of source lines 826-831. -/
def trafRefetch (env : Env) (fetchUrl finalUrl origUrl : String)
    (isMedium : Bool) (fx : List Effect) :
    (Option String × String) × List Effect :=
  let hr := httpGetWithSslFallback env fetchUrl
  let fx2 := fx ++ hr.2
  match hr.1 with
  | .error _ => ((none, origUrl), fx2)
  | .ok resp =>
    match resp.httpStatusError with
    | some _ => ((none, origUrl), fx2)
    | none =>
      let finalUrl2 := if !isMedium then resp.finalUrl else finalUrl
      (trafFinish env resp.text finalUrl2 origUrl, fx2)

/-- Source lines 825-831 followed by 833-855: when no HTML is in hand yet
(or it is the empty string, which Python treats as falsy), fetch it, then
finish with trafilatura; any fetch failure is caught by the handlers at
lines 857-865 and yields `(None, url)`. -/
def trafAfterHtml (env : Env) (htmlContent : Option String)
    (fetchUrl finalUrl origUrl : String) (isMedium : Bool) (fx : List Effect) :
    (Option String × String) × List Effect :=
  match htmlContent with
  | some h =>
    if h ≠ "" then (trafFinish env h finalUrl origUrl, fx)
    else trafRefetch env fetchUrl finalUrl origUrl isMedium fx
  | none => trafRefetch env fetchUrl finalUrl origUrl isMedium fx

/-- `_extract_with_trafilatura` (source lines 773-865).  The whole body is
inside a `try` whose handlers return `(None, url)`, so it never raises.
Medium URLs go through canonical resolution, classification, the `/m/`
rewrite and a JSON-LD attempt before the generic fetch. -/
def extractWithTrafilatura (env : Env) (url : String) :
    (Option String × String) × List Effect :=
  let marker := [Effect.trafilaturaRun url]
  let isMedium := strIn "medium.com" (sLower url)
  if isMedium then
    let rc := resolveMediumCanonical env url
    let canonicalUrl := rc.1.1
    let initialHtml := rc.1.2
    let fx1 := marker ++ rc.2
    match classifyMediumUrl canonicalUrl with
    | .error _ => ((none, url), fx1)
    | .ok urlType =>
      let fetchUrl := prepareMediumUrl canonicalUrl urlType
      let jsonHit : Option String :=
        match initialHtml with
        | some h => extractFromJsonLd env h
        | none => none
      match jsonHit with
      | some j => ((some j, canonicalUrl), fx1)
      | none =>
        if fetchUrl ≠ canonicalUrl && urlType = "standard" then
          let hr := httpGetWithSslFallback env fetchUrl
          let fx2 := fx1 ++ hr.2
          match hr.1 with
          | .error _ => ((none, url), fx2)
          | .ok resp =>
            match resp.httpStatusError with
            | some _ => ((none, url), fx2)
            | none =>
              trafAfterHtml env (some resp.text) fetchUrl canonicalUrl url true fx2
        else
          trafAfterHtml env initialHtml fetchUrl canonicalUrl url true fx1
  else
    let hr := httpGetWithSslFallback env url
    let fx1 := marker ++ hr.2
    match hr.1 with
    | .error _ => ((none, url), fx1)
    | .ok resp =>
      match resp.httpStatusError with
      | some _ => ((none, url), fx1)
      | none =>
        trafAfterHtml env (some resp.text) url resp.finalUrl url false fx1

/-- Validation of source lines 970-980: nonempty text whose trimmed length
strictly exceeds 100 characters. -/
def npValidate (text finalUrl : String) : Option String × String :=
  if text ≠ "" && sLength (pyStrip text) > 100 then (some (pyStrip text), finalUrl)
  else (none, finalUrl)

/-- Source lines 962-968: let newspaper3k download the article itself; the
download is a network request.  `article.url` replaces the final URL for
non-Medium URLs when nonempty. -/
def npDownload (env : Env) (fetchUrl finalUrl origUrl : String)
    (isMedium : Bool) (fx : List Effect) :
    (Option String × String) × List Effect :=
  let fx2 := fx ++ [Effect.netRequest fetchUrl true]
  match env.newspaperDownloadRes fetchUrl with
  | .error _ => ((none, origUrl), fx2)
  | .ok res =>
    let text := res.1
    let artUrl := res.2
    let finalUrl2 := if !isMedium && artUrl ≠ "" then artUrl else finalUrl
    (npValidate text finalUrl2, fx2)

/-- The single fetch attempt of source lines 941-945, recording the
post-redirect URL. -/
def npPrefetchGet (env : Env) (fetchUrl finalUrl0 : String) (fx0 : List Effect) :
    Option String × String × List Effect :=
  let hr := httpGetWithSslFallback env fetchUrl
  match hr.1 with
  | .ok resp =>
    if resp.httpStatusError.isSome then (none, finalUrl0, fx0 ++ hr.2)
    else (some resp.text, resp.finalUrl, fx0 ++ hr.2)
  | .error _ => (none, finalUrl0, fx0 ++ hr.2)

/-- Source lines 940-948: the guarded prefetch — when no (truthy) HTML is in
hand, try one fetch; a failure leaves the HTML absent instead of raising. -/
def npPrefetch (env : Env) (htmlContent0 : Option String)
    (fetchUrl finalUrl0 : String) (fx0 : List Effect) :
    Option String × String × List Effect :=
  match htmlContent0 with
  | some h =>
    if h ≠ "" then (some h, finalUrl0, fx0)
    else npPrefetchGet env fetchUrl finalUrl0 fx0
  | none => npPrefetchGet env fetchUrl finalUrl0 fx0

/-- Source lines 938-968: the guarded prefetch, then newspaper3k parsing
from the pre-fetched HTML (sanitized) or via its own download. -/
def npStage2 (env : Env) (htmlContent0 : Option String)
    (fetchUrl finalUrl0 origUrl : String) (isMedium : Bool) (fx0 : List Effect) :
    (Option String × String) × List Effect :=
  let prefetch := npPrefetch env htmlContent0 fetchUrl finalUrl0 fx0
  let htmlContent := prefetch.1
  let finalUrl := prefetch.2.1
  let fx := prefetch.2.2
  match htmlContent with
  | some h =>
    if h ≠ "" then
      match env.newspaperFromHtml (sanitizeHtml h) with
      | .error _ => ((none, origUrl), fx)
      | .ok text => (npValidate text finalUrl, fx)
    else npDownload env fetchUrl finalUrl origUrl isMedium fx
  | none => npDownload env fetchUrl finalUrl origUrl isMedium fx

/-- Source lines 932-936: the conditional re-fetch for "standard" Medium
URLs whose canonical resolution produced no HTML. -/
def npMediumRefetch (env : Env) (fetchUrl canonicalUrl origUrl urlType : String)
    (fx : List Effect) : (Option String × String) × List Effect :=
  if fetchUrl ≠ canonicalUrl && urlType = "standard" then
    let hr := httpGetWithSslFallback env fetchUrl
    let fx2 := fx ++ hr.2
    match hr.1 with
    | .error _ => ((none, origUrl), fx2)
    | .ok resp =>
      match resp.httpStatusError with
      | some _ => ((none, origUrl), fx2)
      | none => npStage2 env (some resp.text) fetchUrl resp.finalUrl origUrl true fx2
  else
    npStage2 env none fetchUrl canonicalUrl origUrl true fx

/-- `_extract_with_newspaper` (source lines 896-984).  The whole body is
inside a `try` returning `(None, url)` on any exception. -/
def extractWithNewspaper (env : Env) (url : String) :
    (Option String × String) × List Effect :=
  let marker := [Effect.newspaperRun url]
  let isMedium := strIn "medium.com" (sLower url)
  if isMedium then
    let rc := resolveMediumCanonical env url
    let canonicalUrl := rc.1.1
    let initialHtml := rc.1.2
    let fx1 := marker ++ rc.2
    match classifyMediumUrl canonicalUrl with
    | .error _ => ((none, url), fx1)
    | .ok urlType =>
      let fetchUrl := prepareMediumUrl canonicalUrl urlType
      match initialHtml with
      | some h =>
        if h ≠ "" then npStage2 env (some h) fetchUrl canonicalUrl url true fx1
        else npMediumRefetch env fetchUrl canonicalUrl url urlType fx1
      | none => npMediumRefetch env fetchUrl canonicalUrl url urlType fx1
  else
    npStage2 env none url url url false marker

/-!  ## Dispatch and `extract` -/

/-- Run the handler bound to a pattern (source line 304).  The two built-in
handlers (`_extract_pdf_pattern`, which wraps `_extract_pdf`, and
`_extract_github`) never raise because their bodies are fully guarded;
externally registered handlers may raise arbitrarily.  Each invocation is
logged as a `handlerCall` effect. -/
def runHandler (env : Env) (h : HandlerId) (patternName url : String) :
    Except PyExc (Option String) × List Effect :=
  match h with
  | .pdfPat =>
    let r := extractPdf env url
    (.ok r.1, Effect.handlerCall patternName url :: r.2)
  | .githubPat =>
    let r := extractGithub env url
    (.ok r.1, Effect.handlerCall patternName url :: r.2)
  | .external k =>
    (env.externalHandler k url, [Effect.handlerCall patternName url])

/-- Bump `total_attempts` and `trafilatura_success` (source lines 307-308
and 325-326). -/
def bumpSuccess (m : Metrics) : Metrics :=
  { m with totalAttempts := m.totalAttempts + 1,
           trafilaturaSuccess := m.trafilaturaSuccess + 1 }

/-- Source lines 320-355: the part of `extract` that runs after the pattern
dispatch has declined or fallen through — the legacy PDF check, then the
generic trafilatura/newspaper chain.  None of this code can raise: the
metrics keys it touches exist in both dictionary shapes and the strategy
functions are fully guarded. -/
def afterPattern (env : Env) (s : St) (originalUrl url : String)
    (wasLemmy : Bool) : ((Option String × String) × St) × List Effect :=
  if isPdfUrl url then
    let r := extractPdf env url
    match r.1 with
    | some content =>
      (((some content, url), { s with metrics := bumpSuccess s.metrics }), r.2)
    | none =>
      (((none, originalUrl),
        { s with failedUrls := originalUrl :: s.failedUrls,
                 metrics := { s.metrics with
                   totalAttempts := s.metrics.totalAttempts + 1,
                   failures := s.metrics.failures + 1 } }), r.2)
  else
    let s1 := { s with metrics := { s.metrics with
                 totalAttempts := s.metrics.totalAttempts + 1 } }
    let tr := extractWithTrafilatura env url
    match tr.1.1 with
    | some content =>
      (((some content, if wasLemmy then url else tr.1.2),
        { s1 with metrics := { s1.metrics with
            trafilaturaSuccess := s1.metrics.trafilaturaSuccess + 1 } }), tr.2)
    | none =>
      let np := extractWithNewspaper env url
      match np.1.1 with
      | some content =>
        (((some content, if wasLemmy then url else np.1.2),
          { s1 with metrics := { s1.metrics with
              newspaperSuccess := s1.metrics.newspaperSuccess + 1 } }),
         tr.2 ++ np.2)
      | none =>
        (((none, originalUrl),
          { s1 with failedUrls := originalUrl :: s1.failedUrls,
                    metrics := { s1.metrics with
                      failures := s1.metrics.failures + 1 } }),
         tr.2 ++ np.2)

/-- Source lines 295-355: arXiv conversion, pattern dispatch and everything
after it.  The registry lookup at line 299 is outside any `try`, so a parse
failure there raises out of `extract`; the handler invocation and the
metrics recording of lines 303-312 are inside a `try` whose handler at line
316 falls through to the generic path — including the KeyError raised at
line 310 when `reset_metrics` has removed the `"pattern_extractions"` key
(in that case the increments of lines 307-308 have already happened). -/
def dispatchAndExtract (env : Env) (s : St) (originalUrl url0 : String)
    (wasLemmy : Bool) :
    Except PyExc ((Option String × String) × St) × List Effect :=
  let url := convertArxivToPdf url0
  match getHandlerE s.registry url with
  | .error e => (.error e, [])
  | .ok none =>
    let r := afterPattern env s originalUrl url wasLemmy
    (.ok r.1, r.2)
  | .ok (some (patternName, h)) =>
    let hres := runHandler env h patternName url
    match hres.1 with
    | .error _ =>
      let r := afterPattern env s originalUrl url wasLemmy
      (.ok r.1, hres.2 ++ r.2)
    | .ok none =>
      let r := afterPattern env s originalUrl url wasLemmy
      (.ok r.1, hres.2 ++ r.2)
    | .ok (some content) =>
      if content ≠ "" && sLength (pyStrip content) > 100 then
        let s1 := { s with metrics := bumpSuccess s.metrics }
        match s1.metrics.patternExtractions with
        | none =>
          -- KeyError at line 310, caught at line 316: fall through with the
          -- two success counters already incremented.
          let r := afterPattern env s1 originalUrl url wasLemmy
          (.ok r.1, hres.2 ++ r.2)
        | some pe =>
          (.ok ((some content, url),
                { s1 with metrics := { s1.metrics with
                    patternExtractions := some (bumpCount patternName pe) } }),
           hres.2)
      else
        let r := afterPattern env s originalUrl url wasLemmy
        (.ok r.1, hres.2 ++ r.2)

/-- `ContentExtractor.extract` (source lines 265-355): failure-cache
short-circuit, Lemmy resolution, then dispatch.  The result is the returned
pair (or a raised exception), the updated extractor state, and the effect
log of the call. -/
def extract (env : Env) (s : St) (url : String) :
    Except PyExc ((Option String × String) × St) × List Effect :=
  let originalUrl := url
  if s.failedUrls.contains url then
    (.ok ((none, originalUrl),
          { s with metrics := { s.metrics with
              cachedFailures := s.metrics.cachedFailures + 1 } }), [])
  else
    match isLemmyUrlE url with
    | .error e => (.error e, [])
    | .ok isLemmy =>
      if isLemmy then
        let ld := lemmyDestination env url
        match ld.1 with
        | some realUrl =>
          let d := dispatchAndExtract env s originalUrl realUrl true
          (d.1, ld.2 ++ d.2)
        | none =>
          (.ok ((none, originalUrl),
                { s with failedUrls := originalUrl :: s.failedUrls,
                         metrics := { s.metrics with
                           failures := s.metrics.failures + 1 } }), ld.2)
      else
        dispatchAndExtract env s originalUrl url false

/-!  ## Concrete environments and states used in closed statements -/

/-- A response with no content, used as a default. -/
def respTrivial : HttpResponse := ⟨none, "", "", "", .noUrl, .ok []⟩

/-- An environment in which every network request fails and every library
lookup finds nothing. -/
def envTrivial : Env :=
  ⟨fun _ _ => .error (.connectError "no network"),
   fun _ => none, fun _ => none, fun _ => none, fun _ => none,
   fun _ => none, fun _ => none, fun _ => none, fun _ => none, fun _ => none,
   fun _ => [],
   fun _ => .ok none,
   fun _ => .error (.other "no html"),
   fun _ => .error (.other "download failed"),
   fun _ _ => .ok none⟩

/-- A PDF response whose single page extracts to `n` copies of the letter a. -/
def pdfResp (n : Nat) : HttpResponse :=
  ⟨none, "", "application/pdf", "",
   .noUrl, .ok [some (String.mk (List.replicate n 'a'))]⟩

/-- An environment in which every fetch succeeds and yields a PDF whose text
is `n` characters long. -/
def envPdf (n : Nat) : Env :=
  { envTrivial with httpGet := fun _ _ => .ok (pdfResp n) }

/-- A fetch oracle whose verified attempt fails with a certificate message
that does not contain the substring SSL, and whose unverified retry also
fails, with a different message. -/
def certGet (_url : String) (verify : Bool) : Except PyExc HttpResponse :=
  if verify then .error (.connectError "CERTIFICATE_VERIFY_FAILED")
  else .error (.connectError "handshake failed again")

/-- The environment built on `certGet`. -/
def envCert : Env := { envTrivial with httpGet := certGet }

/-- The HTML of the Lemmy post page in the C4 scenario. -/
def lemmyPostHtml : String := "<html>post</html>"

/-- The page response for the Lemmy post in the C4 scenario. -/
def respLemmyHtml : HttpResponse :=
  ⟨none, lemmyPostHtml, "text/html", "https://lemmy.world/post/123", .noUrl, .ok []⟩

/-- The C4 scenario: the Lemmy read API is unreachable, the post page itself
loads fine, and its HTML carries an external-link anchor pointing at the
true destination. -/
def envLemmyC4 : Env :=
  { envTrivial with
    httpGet := fun u _ =>
      if u = "https://lemmy.world/api/v3/post?id=123" then
        .error (.connectError "boom")
      else .ok respLemmyHtml,
    soupExternalLink := fun h =>
      if h = lemmyPostHtml then some "https://example.com/article" else none }

/-- Extractor state after `reset_metrics` has run on a fresh extractor. -/
def resetSt : St := resetMetrics initSt

/-- The state of a fresh extractor after one fully failed extraction of the
URL "x" in the no-network environment. -/
def stFail : St :=
  { failedUrls := ["x"], metrics := ⟨1, 0, 0, 1, 0, some []⟩,
    registry := defaultRegistry }

/-- Extractor state whose failure cache already holds one URL. -/
def cachedSt : St := { initSt with failedUrls := ["http://cached.example/a"] }

/-- Pattern A of the priority scenario (priority 10). -/
def patA : ExtractionPattern := ⟨"alpha", ["a.example"], .external 0, 10⟩

/-- Pattern B of the priority scenario (priority 3, matching the same host). -/
def patB : ExtractionPattern := ⟨"beta", ["a.example"], .external 1, 3⟩

/-- A variant of pattern B with the same priority as pattern A, for the
registration-order tie-break scenario. -/
def patB10 : ExtractionPattern := ⟨"beta", ["a.example"], .external 1, 10⟩

/-- State whose registry holds exactly the two scenario patterns. -/
def stAB : St :=
  { initSt with registry := registerPattern (registerPattern [] patA) patB }

/-!  ## Statement-level predicates -/

/-- Every effect in the list is a network request. -/
def NetOnly (fx : List Effect) : Prop := ∀ e ∈ fx, e.isNet = true

/-- The handler of the matched pattern produced no content or content at or
under the textual threshold (the fall-through condition of source lines
305 and 314). -/
def HandlerInsufficient (env : Env) (h : HandlerId) (n url : String) : Prop :=
  (runHandler env h n url).1 = .ok none ∨
  ∃ c, (runHandler env h n url).1 = .ok (some c) ∧
       (c = "" ∨ sLength (pyStrip c) ≤ 100)

/-!  ## Claim C8: the arXiv rewrite is a pure string transform -/

/-- C8: `_convert_arxiv_to_pdf` is a pure string transform (its type performs
no effects); it rewrites the example abstract URL to exactly the canonical
PDF URL, and returns every URL that does not match the abstract pattern
unchanged. -/
theorem arxiv_rewrite_pure :
    convertArxivToPdf "https://arxiv.org/abs/2501.02496" =
      "https://arxiv.org/pdf/2501.02496.pdf" ∧
    ∀ url, arxivAbsId url = none → convertArxivToPdf url = url := by
  refine ⟨by decide, ?_⟩
  intro url h
  simp [convertArxivToPdf, h]

/-- Witness for C8 at a concrete non-matching URL. -/
theorem arxiv_rewrite_pure_witness :
    arxivAbsId "https://example.com/a" = none ∧
    convertArxivToPdf "https://example.com/a" = "https://example.com/a" :=
  ⟨by decide, arxiv_rewrite_pure.2 "https://example.com/a" (by decide)⟩

/-!  ## Claim C7: the TLS-verification fallback -/

/-- C7 counterexample: the first attempt fails with a connection error whose
message is CERTIFICATE_VERIFY_FAILED, which does not contain the marker SSL,
yet the code performs a second, verification-disabled request — the claim
says no retry occurs in this case. -/
theorem ssl_fallback_retries_on_certificate_marker :
    strIn "SSL" "CERTIFICATE_VERIFY_FAILED" = false ∧
    httpGetWithSslFallback envCert "u" =
      (.error (.connectError "handshake failed again"),
       [.netRequest "u" true, .netRequest "u" false]) := by
  exact ⟨by decide, by decide⟩

/-- C7 (amended): the retry condition is an `httpx.ConnectError` whose
message contains SSL or CERTIFICATE.  When the first attempt succeeds there
is a single request; when it fails retryably there are exactly two requests
(the second with verification disabled) and the outcome of the retry is
final; when it fails non-retryably (including a connection error without
either marker) the failure propagates after a single request. -/
theorem ssl_fallback_retry_characterization (env : Env) (url : String) :
    (∀ r, env.httpGet url true = .ok r →
       httpGetWithSslFallback env url = (.ok r, [.netRequest url true])) ∧
    (∀ e, env.httpGet url true = .error e → isSslRetryable e = true →
       httpGetWithSslFallback env url =
         (env.httpGet url false, [.netRequest url true, .netRequest url false])) ∧
    (∀ e, env.httpGet url true = .error e → isSslRetryable e = false →
       httpGetWithSslFallback env url = (.error e, [.netRequest url true])) := by
  refine ⟨?_, ?_, ?_⟩
  · intro r h
    simp [httpGetWithSslFallback, h]
  · intro e h hr
    simp only [httpGetWithSslFallback, h, hr, if_true]
    cases h2 : env.httpGet url false <;> simp [h2]
  · intro e h hr
    simp [httpGetWithSslFallback, h, hr]

/-- Witness for C7 at concrete environments: a connection error without
either marker is not retried, and the certificate-marker error is retried
with the retry outcome final. -/
theorem ssl_fallback_retry_characterization_witness :
    httpGetWithSslFallback envTrivial "u" =
      (.error (.connectError "no network"), [.netRequest "u" true]) ∧
    httpGetWithSslFallback envCert "u" =
      (envCert.httpGet "u" false, [.netRequest "u" true, .netRequest "u" false]) :=
  ⟨(ssl_fallback_retry_characterization envTrivial "u").2.2
      (.connectError "no network") rfl (by decide),
   (ssl_fallback_retry_characterization envCert "u").2.1
      (.connectError "CERTIFICATE_VERIFY_FAILED") rfl (by decide)⟩

/-!  ## Claim C3: the PDF acceptance threshold -/

/-- C3 counterexample: a PDF whose concatenated page text trims to exactly
500 characters is accepted (the source rejects only strictly below 500),
while the claim says exactly 500 is rejected. -/
theorem pdf_threshold_accepts_exactly_500 :
    sLength (pyStrip (String.mk (List.replicate 500 'a'))) = 500 ∧
    (extractPdf (envPdf 500) "http://e/x.pdf").1 =
      some (String.mk (List.replicate 500 'a')) := by
  exact ⟨by decide, by decide⟩

/-- C3 (amended): PDF extraction accepts exactly the documents whose
concatenated trimmed page text has length at least 500: given a successful
download with a PDF content type (or a `.pdf` URL), the result is the
trimmed concatenation when its length is at least 500 and `None` when it is
shorter. -/
theorem pdf_threshold_geq_500 (env : Env) (url : String) (resp : HttpResponse)
    (pages : List (Option String))
    (hfetch : (httpGetWithSslFallback env url).1 = .ok resp)
    (hstatus : resp.httpStatusError = none)
    (htype : strIn "pdf" (sLower resp.contentType) = true ∨ sEndsWith url ".pdf" = true)
    (hdoc : resp.pdfDoc = .ok pages) :
    (extractPdf env url).1 =
      (if sLength (pyStrip (String.intercalate "\n"
             ((pages.filterMap id).filter (fun t => t ≠ "")))) < 500
       then none
       else some (pyStrip (String.intercalate "\n"
             ((pages.filterMap id).filter (fun t => t ≠ ""))))) := by
  simp only [extractPdf, hfetch, hstatus, hdoc]
  rcases htype with h | h <;> simp [h] <;> split <;> simp

/-- Witness for C3: 501 characters are accepted and 499 are rejected. -/
theorem pdf_threshold_geq_500_witness :
    (extractPdf (envPdf 501) "http://e/x.pdf").1 =
      some (String.mk (List.replicate 501 'a')) ∧
    (extractPdf (envPdf 499) "http://e/x.pdf").1 = none := by
  constructor
  · have h := pdf_threshold_geq_500 (envPdf 501) "http://e/x.pdf" (pdfResp 501)
      [some (String.mk (List.replicate 501 'a'))] rfl rfl (by decide) rfl
    rw [h]; decide
  · have h := pdf_threshold_geq_500 (envPdf 499) "http://e/x.pdf" (pdfResp 499)
      [some (String.mk (List.replicate 499 'a'))] rfl rfl (by decide) rfl
    rw [h]; decide

/-!  ## Effect-log lemmas -/

/-- Appending preserves the all-network-requests property. -/
theorem netOnly_append {a b : List Effect} (ha : NetOnly a) (hb : NetOnly b) :
    NetOnly (a ++ b) := by
  intro e he
  rcases List.mem_append.mp he with h | h
  · exact ha e h
  · exact hb e h

/-- The HTTP layer emits only network requests. -/
theorem httpGet_effects_net (env : Env) (url : String) :
    NetOnly (httpGetWithSslFallback env url).2 := by
  intro e he
  unfold httpGetWithSslFallback at he
  cases h1 : env.httpGet url true <;> simp only [h1] at he
  case ok r =>
    simp at he; subst he; rfl
  case error ex =>
    by_cases h2 : isSslRetryable ex
    · rw [if_pos h2] at he
      cases h3 : env.httpGet url false <;> simp only [h3] at he <;>
        (simp at he; rcases he with rfl | rfl <;> rfl)
    · rw [if_neg h2] at he
      simp at he; subst he; rfl

/-- Canonical resolution emits exactly the effects of its single fetch. -/
theorem resolveMediumCanonical_effects (env : Env) (url : String) :
    (resolveMediumCanonical env url).2 = (httpGetWithSslFallback env url).2 := by
  unfold resolveMediumCanonical
  dsimp only
  repeat' split
  all_goals rfl

/-- PDF extraction emits its marker followed by the effects of its fetch. -/
theorem extractPdf_effects (env : Env) (url : String) :
    (extractPdf env url).2 =
      Effect.pdfRun url :: (httpGetWithSslFallback env url).2 := by
  unfold extractPdf
  dsimp only
  repeat' split
  all_goals rfl

/-- GitHub extraction emits exactly the effects of its single fetch. -/
theorem extractGithub_effects (env : Env) (url : String) :
    (extractGithub env url).2 = (httpGetWithSslFallback env url).2 := by
  unfold extractGithub
  dsimp only
  repeat' split
  all_goals rfl

/-- The late trafilatura fetch appends exactly one fetch to the log. -/
theorem trafRefetch_effects (env : Env) (a b c : String) (m : Bool)
    (fx : List Effect) :
    (trafRefetch env a b c m fx).2 = fx ++ (httpGetWithSslFallback env a).2 := by
  unfold trafRefetch
  dsimp only
  repeat' split
  all_goals rfl

/-- The post-HTML trafilatura stage appends only network requests. -/
theorem trafAfterHtml_effects (env : Env) (h : Option String) (a b c : String)
    (m : Bool) (fx : List Effect) :
    ∃ rest, (trafAfterHtml env h a b c m fx).2 = fx ++ rest ∧ NetOnly rest := by
  unfold trafAfterHtml
  cases h with
  | some h0 =>
    by_cases hne : h0 ≠ ""
    · refine ⟨[], ?_, by intro e he; cases he⟩
      simp [hne]
    · simp only [if_neg hne]
      exact ⟨_, trafRefetch_effects env a b c m fx, httpGet_effects_net env a⟩
  | none =>
    exact ⟨_, trafRefetch_effects env a b c m fx, httpGet_effects_net env a⟩

/-- Effects of the post-HTML trafilatura stage: the incoming log plus
network requests only. -/
theorem trafAfterHtml_effects_mem (env : Env) (h : Option String)
    (a b c : String) (m : Bool) (fx : List Effect) :
    ∀ e ∈ (trafAfterHtml env h a b c m fx).2, e ∈ fx ∨ e.isNet = true := by
  intro e he
  unfold trafAfterHtml at he
  have hre : ∀ u fin o, e ∈ (trafRefetch env u fin o m fx).2 →
      e ∈ fx ∨ e.isNet = true := by
    intro u fin o hmem
    rw [trafRefetch_effects] at hmem
    rcases List.mem_append.mp hmem with h1 | h1
    · exact Or.inl h1
    · exact Or.inr (httpGet_effects_net env u e h1)
  split at he
  · split at he
    · exact Or.inl he
    · exact hre _ _ _ he
  · exact hre _ _ _ he

/-- The incoming log survives into the post-HTML trafilatura stage. -/
theorem trafAfterHtml_fx_mem (env : Env) (h : Option String)
    (a b c : String) (m : Bool) (fx : List Effect) :
    ∀ e ∈ fx, e ∈ (trafAfterHtml env h a b c m fx).2 := by
  intro e he
  unfold trafAfterHtml
  have hre : ∀ u fin o, e ∈ (trafRefetch env u fin o m fx).2 := by
    intro u fin o
    rw [trafRefetch_effects]
    exact List.mem_append.mpr (Or.inl he)
  split
  · split
    · exact he
    · exact hre _ _ _
  · exact hre _ _ _

/-- Every effect of the trafilatura strategy is its own marker or a network
request. -/
theorem traf_effects_mem (env : Env) (url : String) :
    ∀ e ∈ (extractWithTrafilatura env url).2,
      e = Effect.trafilaturaRun url ∨ e.isNet = true := by
  intro e he
  have hmk : ∀ (X : List Effect), (∀ x ∈ X, x.isNet = true) →
      e ∈ Effect.trafilaturaRun url :: X →
      e = Effect.trafilaturaRun url ∨ e.isNet = true := by
    intro X hX hmem
    rcases List.mem_cons.mp hmem with h1 | h1
    · exact Or.inl h1
    · exact Or.inr (hX e h1)
  have hmed : NetOnly (resolveMediumCanonical env url).2 := by
    rw [resolveMediumCanonical_effects]; exact httpGet_effects_net env url
  unfold extractWithTrafilatura at he
  dsimp only at he
  split at he
  · -- Medium branch
    split at he
    · exact hmk _ hmed he
    · split at he
      · exact hmk _ hmed he
      · split at he
        · split at he
          · exact hmk _ (netOnly_append hmed (httpGet_effects_net env _)) he
          · split at he
            · exact hmk _ (netOnly_append hmed (httpGet_effects_net env _)) he
            · rcases trafAfterHtml_effects_mem env _ _ _ _ _ _ e he with h1 | h1
              · exact hmk _ (netOnly_append hmed (httpGet_effects_net env _)) h1
              · exact Or.inr h1
        · rcases trafAfterHtml_effects_mem env _ _ _ _ _ _ e he with h1 | h1
          · exact hmk _ hmed h1
          · exact Or.inr h1
  · -- Generic branch
    split at he
    · exact hmk _ (httpGet_effects_net env url) he
    · split at he
      · exact hmk _ (httpGet_effects_net env url) he
      · rcases trafAfterHtml_effects_mem env _ _ _ _ _ _ e he with h1 | h1
        · exact hmk _ (httpGet_effects_net env url) h1
        · exact Or.inr h1

/-- The trafilatura marker is always in the trafilatura log. -/
theorem traf_marker_mem (env : Env) (url : String) :
    Effect.trafilaturaRun url ∈ (extractWithTrafilatura env url).2 := by
  unfold extractWithTrafilatura
  dsimp only
  have hfx : ∀ (X : List Effect),
      Effect.trafilaturaRun url ∈ Effect.trafilaturaRun url :: X :=
    fun X => List.mem_cons_self _ _
  split
  · split
    · exact hfx _
    · split
      · exact hfx _
      · split
        · split
          · exact hfx _
          · split
            · exact hfx _
            · exact trafAfterHtml_fx_mem env _ _ _ _ _ _ _ (hfx _)
        · exact trafAfterHtml_fx_mem env _ _ _ _ _ _ _ (hfx _)
  · split
    · exact hfx _
    · split
      · exact hfx _
      · exact trafAfterHtml_fx_mem env _ _ _ _ _ _ _ (hfx _)

/-- Effects of the newspaper3k download path: the incoming log plus one
network request. -/
theorem npDownload_effects (env : Env) (a b c : String) (m : Bool)
    (fx : List Effect) :
    (npDownload env a b c m fx).2 = fx ++ [Effect.netRequest a true] := by
  unfold npDownload
  dsimp only
  repeat' split
  all_goals rfl

/-- Effects of the newspaper3k prefetch: the incoming log plus network
requests only. -/
theorem npPrefetch_effects_mem (env : Env) (h : Option String) (a b : String)
    (fx : List Effect) :
    ∀ e ∈ (npPrefetch env h a b fx).2.2, e ∈ fx ∨ e.isNet = true := by
  intro e he
  have happ : e ∈ fx ++ (httpGetWithSslFallback env a).2 →
      e ∈ fx ∨ e.isNet = true := by
    intro hx
    rcases List.mem_append.mp hx with h1 | h1
    · exact Or.inl h1
    · exact Or.inr (httpGet_effects_net env a e h1)
  have hget : e ∈ (npPrefetchGet env a b fx).2.2 → e ∈ fx ∨ e.isNet = true := by
    intro hm
    unfold npPrefetchGet at hm
    dsimp only at hm
    split at hm
    · split at hm
      · exact happ hm
      · exact happ hm
    · exact happ hm
  unfold npPrefetch at he
  split at he
  · split at he
    · exact Or.inl he
    · exact hget he
  · exact hget he

/-- Effects of the newspaper3k main stage: the incoming log plus network
requests only. -/
theorem npStage2_effects_mem (env : Env) (h : Option String)
    (a b c : String) (m : Bool) (fx : List Effect) :
    ∀ e ∈ (npStage2 env h a b c m fx).2, e ∈ fx ∨ e.isNet = true := by
  intro e he
  have hpf : ∀ x ∈ (npPrefetch env h a b fx).2.2, x ∈ fx ∨ x.isNet = true :=
    npPrefetch_effects_mem env h a b fx
  have hdl : ∀ fin,
      e ∈ (npDownload env a fin c m (npPrefetch env h a b fx).2.2).2 →
      e ∈ fx ∨ e.isNet = true := by
    intro fin hmem
    rw [npDownload_effects] at hmem
    rcases List.mem_append.mp hmem with h1 | h1
    · exact hpf e h1
    · simp at h1; subst h1; exact Or.inr rfl
  unfold npStage2 at he
  dsimp only at he
  split at he
  · split at he
    · split at he
      · exact hpf e he
      · exact hpf e he
    · exact hdl _ he
  · exact hdl _ he

/-- Every effect of the newspaper3k strategy is its own marker or a network
request. -/
theorem np_effects_mem (env : Env) (url : String) :
    ∀ e ∈ (extractWithNewspaper env url).2,
      e = Effect.newspaperRun url ∨ e.isNet = true := by
  intro e he
  have hmk : ∀ (X : List Effect), (∀ x ∈ X, x ∈ [Effect.newspaperRun url] ∨ x.isNet = true) →
      e ∈ X → e = Effect.newspaperRun url ∨ e.isNet = true := by
    intro X hX hmem
    rcases hX e hmem with h1 | h1
    · simp at h1; exact Or.inl h1
    · exact Or.inr h1
  have hmed : NetOnly (resolveMediumCanonical env url).2 := by
    rw [resolveMediumCanonical_effects]; exact httpGet_effects_net env url
  have hm1 : ∀ x ∈ Effect.newspaperRun url :: (resolveMediumCanonical env url).2,
      x ∈ [Effect.newspaperRun url] ∨ x.isNet = true := by
    intro x hx
    rcases List.mem_cons.mp hx with h1 | h1
    · exact Or.inl (by simp [h1])
    · exact Or.inr (hmed x h1)
  have hm2 : ∀ (u : String),
      ∀ x ∈ (Effect.newspaperRun url :: (resolveMediumCanonical env url).2) ++
        (httpGetWithSslFallback env u).2,
      x ∈ [Effect.newspaperRun url] ∨ x.isNet = true := by
    intro u x hx
    rcases List.mem_append.mp hx with h1 | h1
    · exact hm1 x h1
    · exact Or.inr (httpGet_effects_net env u x h1)
  have hm0 : ∀ x ∈ [Effect.newspaperRun url],
      x ∈ [Effect.newspaperRun url] ∨ x.isNet = true := fun x hx => Or.inl hx
  unfold extractWithNewspaper at he
  dsimp only at he
  split at he
  · -- Medium branch
    split at he
    · exact hmk _ hm1 he
    · split at he
      · split at he
        · rcases npStage2_effects_mem env _ _ _ _ _ _ e he with h1 | h1
          · exact hmk _ hm1 h1
          · exact Or.inr h1
        · unfold npMediumRefetch at he
          dsimp only at he
          split at he
          · split at he
            · exact hmk _ (hm2 _) he
            · split at he
              · exact hmk _ (hm2 _) he
              · rcases npStage2_effects_mem env _ _ _ _ _ _ e he with h1 | h1
                · exact hmk _ (hm2 _) h1
                · exact Or.inr h1
          · rcases npStage2_effects_mem env _ _ _ _ _ _ e he with h1 | h1
            · exact hmk _ hm1 h1
            · exact Or.inr h1
      · unfold npMediumRefetch at he
        dsimp only at he
        split at he
        · split at he
          · exact hmk _ (hm2 _) he
          · split at he
            · exact hmk _ (hm2 _) he
            · rcases npStage2_effects_mem env _ _ _ _ _ _ e he with h1 | h1
              · exact hmk _ (hm2 _) h1
              · exact Or.inr h1
        · rcases npStage2_effects_mem env _ _ _ _ _ _ e he with h1 | h1
          · exact hmk _ hm1 h1
          · exact Or.inr h1
  · -- Generic branch
    rcases npStage2_effects_mem env _ _ _ _ _ _ e he with h1 | h1
    · exact hmk _ hm0 h1
    · exact Or.inr h1

/-- A network request is not a handler call. -/
theorem isHandlerCall_false_of_isNet {e : Effect} (h : e.isNet = true) :
    e.isHandlerCall = false := by
  cases e <;> simp_all [Effect.isNet, Effect.isHandlerCall]

/-- Effect lists with no handler-call entries record no handler calls. -/
theorem handlerCalls_eq_nil {fx : List Effect}
    (h : ∀ e ∈ fx, e.isHandlerCall = false) : handlerCalls fx = [] := by
  induction fx with
  | nil => rfl
  | cons a rest ih =>
    have ha := h a (List.mem_cons_self a rest)
    have hrest := ih fun e he => h e (List.mem_cons_of_mem a he)
    cases a with
    | handlerCall n u => simp [Effect.isHandlerCall] at ha
    | netRequest u v => simpa [handlerCalls, List.filterMap_cons] using hrest
    | pdfRun u => simpa [handlerCalls, List.filterMap_cons] using hrest
    | trafilaturaRun u => simpa [handlerCalls, List.filterMap_cons] using hrest
    | newspaperRun u => simpa [handlerCalls, List.filterMap_cons] using hrest

/-- Recorded handler calls of a concatenation. -/
theorem handlerCalls_append (a b : List Effect) :
    handlerCalls (a ++ b) = handlerCalls a ++ handlerCalls b :=
  List.filterMap_append a b _

/-- Recorded handler calls of a log starting with a handler call. -/
theorem handlerCalls_cons_call (n u : String) (fx : List Effect) :
    handlerCalls (Effect.handlerCall n u :: fx) = (n, u) :: handlerCalls fx := by
  simp [handlerCalls, List.filterMap_cons]

/-- The PDF strategy records no handler calls. -/
theorem extractPdf_handlerCalls (env : Env) (url : String) :
    handlerCalls (extractPdf env url).2 = [] := by
  apply handlerCalls_eq_nil
  intro e he
  rw [extractPdf_effects] at he
  rcases List.mem_cons.mp he with rfl | h1
  · rfl
  · exact isHandlerCall_false_of_isNet (httpGet_effects_net env url e h1)

/-- The GitHub strategy records no handler calls. -/
theorem extractGithub_handlerCalls (env : Env) (url : String) :
    handlerCalls (extractGithub env url).2 = [] := by
  apply handlerCalls_eq_nil
  intro e he
  rw [extractGithub_effects] at he
  exact isHandlerCall_false_of_isNet (httpGet_effects_net env url e he)

/-- Each handler invocation records exactly one handler call, with the name
of the pattern it was dispatched for. -/
theorem runHandler_calls (env : Env) (hid : HandlerId) (n url : String) :
    handlerCalls (runHandler env hid n url).2 = [(n, url)] := by
  cases hid with
  | pdfPat =>
    show handlerCalls (Effect.handlerCall n url :: (extractPdf env url).2) = _
    rw [handlerCalls_cons_call, extractPdf_handlerCalls]
  | githubPat =>
    show handlerCalls (Effect.handlerCall n url :: (extractGithub env url).2) = _
    rw [handlerCalls_cons_call, extractGithub_handlerCalls]
  | external k =>
    rfl

/-- The post-pattern chain records no handler calls. -/
theorem afterPattern_handlerCalls (env : Env) (s : St) (o u : String)
    (w : Bool) : handlerCalls (afterPattern env s o u w).2 = [] := by
  apply handlerCalls_eq_nil
  intro e he
  have hpdf : e ∈ (extractPdf env u).2 → e.isHandlerCall = false := by
    intro hm
    rw [extractPdf_effects] at hm
    rcases List.mem_cons.mp hm with rfl | h1
    · rfl
    · exact isHandlerCall_false_of_isNet (httpGet_effects_net env u e h1)
  have htr : e ∈ (extractWithTrafilatura env u).2 → e.isHandlerCall = false := by
    intro hm
    rcases traf_effects_mem env u e hm with rfl | h1
    · rfl
    · exact isHandlerCall_false_of_isNet h1
  have hnp : e ∈ (extractWithNewspaper env u).2 → e.isHandlerCall = false := by
    intro hm
    rcases np_effects_mem env u e hm with rfl | h1
    · rfl
    · exact isHandlerCall_false_of_isNet h1
  unfold afterPattern at he
  dsimp only at he
  split at he
  · split at he
    · exact hpdf he
    · exact hpdf he
  · split at he
    · exact htr he
    · split at he
      · rcases List.mem_append.mp he with h1 | h1
        · exact htr h1
        · exact hnp h1
      · rcases List.mem_append.mp he with h1 | h1
        · exact htr h1
        · exact hnp h1

/-- The dispatch layer invokes exactly the handler of the registry lookup
(once), and no other handler, whatever it returns. -/
theorem dispatch_handlerCalls (env : Env) (s : St) (o u : String) (w : Bool) :
    handlerCalls (dispatchAndExtract env s o u w).2 =
      (match getHandlerE s.registry (convertArxivToPdf u) with
       | .ok (some (n, _)) => [(n, convertArxivToPdf u)]
       | _ => []) := by
  unfold dispatchAndExtract
  dsimp only
  cases hg : getHandlerE s.registry (convertArxivToPdf u) with
  | error e => rfl
  | ok r =>
    cases r with
    | none =>
      dsimp only
      rw [afterPattern_handlerCalls]
    | some p =>
      obtain ⟨n, hid⟩ := p
      dsimp only
      cases hr : (runHandler env hid n (convertArxivToPdf u)).1 with
      | error e2 =>
        dsimp only
        rw [handlerCalls_append, runHandler_calls, afterPattern_handlerCalls,
          List.append_nil]
      | ok copt =>
        cases copt with
        | none =>
          dsimp only
          rw [handlerCalls_append, runHandler_calls, afterPattern_handlerCalls,
            List.append_nil]
        | some c =>
          dsimp only
          split
          · split
            · rw [handlerCalls_append, runHandler_calls,
                afterPattern_handlerCalls, List.append_nil]
            · dsimp only
              rw [runHandler_calls]
          · rw [handlerCalls_append, runHandler_calls,
              afterPattern_handlerCalls, List.append_nil]

/-!  ## Registry-order lemmas -/

/-- Registering two patterns of distinct priorities yields the
higher-priority one first, in either registration order. -/
theorem registry_two_sorted (A B : ExtractionPattern)
    (hAB : B.priority < A.priority) :
    registerPattern (registerPattern [] A) B = [A, B] ∧
    registerPattern (registerPattern [] B) A = [A, B] := by
  constructor
  · show sortByPriorityDesc ((sortByPriorityDesc ([] ++ [A])) ++ [B]) = [A, B]
    simp [sortByPriorityDesc, insertByPriority]
    intro hc
    exact absurd hc (not_lt_of_gt hAB)
  · show sortByPriorityDesc ((sortByPriorityDesc ([] ++ [B])) ++ [A]) = [A, B]
    simp [sortByPriorityDesc, insertByPriority]
    intro hc
    exact absurd hAB (not_lt.mpr hc)

/-- Registering two patterns of equal priority keeps registration order
(the sort of source line 67 is stable). -/
theorem registry_tie_sorted (A B : ExtractionPattern)
    (hAB : A.priority = B.priority) :
    registerPattern (registerPattern [] A) B = [A, B] := by
  show sortByPriorityDesc ((sortByPriorityDesc ([] ++ [A])) ++ [B]) = [A, B]
  simp [sortByPriorityDesc, insertByPriority]
  intro hc
  rw [hAB] at hc
  exact absurd hc (lt_irrefl _)

/-- Lookup in a two-pattern registry whose first pattern matches. -/
theorem getHandlerE_head_match (A : ExtractionPattern)
    (rest : List ExtractionPattern) (u : String)
    (hA : A.matchesE u = .ok true) :
    getHandlerE (A :: rest) u = .ok (some (A.name, A.handler)) := by
  unfold getHandlerE
  rw [hA]

/-- For non-PDF URLs the post-pattern chain always runs trafilatura. -/
theorem afterPattern_traf_mem (env : Env) (s : St) (o u : String) (w : Bool)
    (hnp : isPdfUrl u = false) :
    Effect.trafilaturaRun u ∈ (afterPattern env s o u w).2 := by
  unfold afterPattern
  dsimp only
  rw [if_neg (by simp [hnp])]
  split
  · exact traf_marker_mem env u
  · split
    · exact List.mem_append.mpr (Or.inl (traf_marker_mem env u))
    · exact List.mem_append.mpr (Or.inl (traf_marker_mem env u))

/-!  ## Claim C5: priority dispatch -/

/-- C5: when patterns A and B both match a URL and A has strictly higher
priority, registry lookup returns A in either registration order; equal
priorities are resolved by registration order; one `extract` dispatch
invokes at most the one handler the lookup returned — never a second
matching pattern; and when that handler yields no content or content at or
under the textual threshold, the generic chain (trafilatura first) is
consulted next for non-document URLs. -/
theorem pattern_priority_dispatch :
    (∀ (A B : ExtractionPattern) (u : String), B.priority < A.priority →
       A.matchesE u = .ok true → B.matchesE u = .ok true →
       getHandlerE (registerPattern (registerPattern [] A) B) u =
         .ok (some (A.name, A.handler)) ∧
       getHandlerE (registerPattern (registerPattern [] B) A) u =
         .ok (some (A.name, A.handler))) ∧
    (∀ (A B : ExtractionPattern) (u : String), A.priority = B.priority →
       A.matchesE u = .ok true →
       getHandlerE (registerPattern (registerPattern [] A) B) u =
         .ok (some (A.name, A.handler))) ∧
    (∀ (env : Env) (s : St) (o u : String) (w : Bool),
       handlerCalls (dispatchAndExtract env s o u w).2 =
         (match getHandlerE s.registry (convertArxivToPdf u) with
          | .ok (some (n, _)) => [(n, convertArxivToPdf u)]
          | _ => [])) ∧
    (∀ (env : Env) (s : St) (o u : String) (w : Bool) (n : String)
       (hid : HandlerId),
       getHandlerE s.registry (convertArxivToPdf u) = .ok (some (n, hid)) →
       HandlerInsufficient env hid n (convertArxivToPdf u) →
       isPdfUrl (convertArxivToPdf u) = false →
       Effect.trafilaturaRun (convertArxivToPdf u) ∈
         (dispatchAndExtract env s o u w).2) := by
  refine ⟨?_, ?_, ?_, ?_⟩
  · intro A B u hAB hA _hB
    obtain ⟨h1, h2⟩ := registry_two_sorted A B hAB
    exact ⟨h1 ▸ getHandlerE_head_match A [B] u hA,
           h2 ▸ getHandlerE_head_match A [B] u hA⟩
  · intro A B u hAB hA
    exact (registry_tie_sorted A B hAB) ▸ getHandlerE_head_match A [B] u hA
  · intro env s o u w
    exact dispatch_handlerCalls env s o u w
  · intro env s o u w n hid hmatch hins hnp
    unfold dispatchAndExtract
    dsimp only
    rw [hmatch]
    dsimp only
    rcases hins with h0 | ⟨c, hc, hcond⟩
    · rw [h0]
      dsimp only
      exact List.mem_append.mpr (Or.inr (afterPattern_traf_mem env s o _ w hnp))
    · rw [hc]
      dsimp only
      split
      · rename_i hcond2
        exfalso
        simp only [Bool.and_eq_true, decide_eq_true_eq] at hcond2
        rcases hcond with rfl | hle
        · exact hcond2.1 rfl
        · omega
      · exact List.mem_append.mpr (Or.inr (afterPattern_traf_mem env s o _ w hnp))

/-- Witness for C5 at the concrete two-pattern scenario. -/
theorem pattern_priority_dispatch_witness :
    getHandlerE (registerPattern (registerPattern [] patA) patB)
      "http://a.example/x" = .ok (some ("alpha", HandlerId.external 0)) ∧
    getHandlerE (registerPattern (registerPattern [] patB) patA)
      "http://a.example/x" = .ok (some ("alpha", HandlerId.external 0)) ∧
    getHandlerE (registerPattern (registerPattern [] patA) patB10)
      "http://a.example/x" = .ok (some ("alpha", HandlerId.external 0)) ∧
    Effect.trafilaturaRun "http://a.example/x" ∈
      (dispatchAndExtract envTrivial stAB "http://a.example/x"
        "http://a.example/x" false).2 :=
  ⟨(pattern_priority_dispatch.1 patA patB "http://a.example/x" (by decide)
      (by decide) (by decide)).1,
   (pattern_priority_dispatch.1 patA patB "http://a.example/x" (by decide)
      (by decide) (by decide)).2,
   pattern_priority_dispatch.2.1 patA patB10 "http://a.example/x" (by decide)
     (by decide),
   pattern_priority_dispatch.2.2.2 envTrivial stAB "http://a.example/x"
     "http://a.example/x" false "alpha" (HandlerId.external 0) (by decide)
     (Or.inl (by decide)) (by decide)⟩

/-!  ## Nonemptiness of successful content -/

/-- Strings of positive Python length are nonempty. -/
theorem ne_empty_of_sLength_pos {s : String} (h : 0 < sLength s) : s ≠ "" := by
  intro he
  rw [he] at h
  simp [sLength] at h

/-- PDF extraction only returns nonempty content. -/
theorem extractPdf_some_ne (env : Env) (u : String) {c : String}
    (h : (extractPdf env u).1 = some c) : c ≠ "" := by
  unfold extractPdf at h
  dsimp only at h
  repeat' split at h
  all_goals first
    | exact Option.noConfusion h
    | (rename_i hguard
       simp at hguard h
       subst h
       exact ne_empty_of_sLength_pos (by omega))

/-- The trafilatura validation step only returns nonempty content. -/
theorem trafFinish_some_ne (env : Env) (a b c : String) {x : String}
    (h : (trafFinish env a b c).1 = some x) : x ≠ "" := by
  unfold trafFinish at h
  dsimp only at h
  repeat' split at h
  all_goals first
    | exact Option.noConfusion h
    | (rename_i hguard
       simp only [Bool.and_eq_true, decide_eq_true_eq] at hguard
       obtain ⟨hg1, hg2⟩ := hguard
       simp at h
       subst h
       exact ne_empty_of_sLength_pos (by omega))

/-- JSON-LD extraction only returns nonempty content. -/
theorem extractFromJsonLd_some_ne (env : Env) (html : String) {x : String}
    (h : extractFromJsonLd env html = some x) : x ≠ "" := by
  unfold extractFromJsonLd at h
  obtain ⟨b, _hb, hfb⟩ := List.exists_of_findSome?_eq_some h
  split at hfb
  · rename_i hguard
    simp only [Bool.and_eq_true, decide_eq_true_eq] at hguard
    obtain ⟨hg1, hg2⟩ := hguard
    simp at hfb
    subst hfb
    exact ne_empty_of_sLength_pos (by omega)
  · cases hfb

/-- The newspaper3k validation step only returns nonempty content. -/
theorem npValidate_some_ne (t f : String) {x : String}
    (h : (npValidate t f).1 = some x) : x ≠ "" := by
  unfold npValidate at h
  split at h
  · rename_i hguard
    simp only [Bool.and_eq_true, decide_eq_true_eq] at hguard
    obtain ⟨hg1, hg2⟩ := hguard
    simp at h
    subst h
    exact ne_empty_of_sLength_pos (by omega)
  · exact absurd h (Option.noConfusion)

/-- The late trafilatura fetch only returns nonempty content. -/
theorem trafRefetch_some_ne (env : Env) (a b o : String) (m : Bool)
    (fx : List Effect) {c : String}
    (h : (trafRefetch env a b o m fx).1.1 = some c) : c ≠ "" := by
  unfold trafRefetch at h
  dsimp only at h
  repeat' split at h
  all_goals first
    | exact Option.noConfusion h
    | exact trafFinish_some_ne env _ _ _ h

/-- The post-HTML trafilatura stage only returns nonempty content. -/
theorem trafAfterHtml_some_ne (env : Env) (ho : Option String) (a b o : String)
    (m : Bool) (fx : List Effect) {c : String}
    (h : (trafAfterHtml env ho a b o m fx).1.1 = some c) : c ≠ "" := by
  unfold trafAfterHtml at h
  split at h
  · split at h
    · exact trafFinish_some_ne env _ _ _ h
    · exact trafRefetch_some_ne env _ _ _ _ _ h
  · exact trafRefetch_some_ne env _ _ _ _ _ h

/-- The trafilatura strategy only returns nonempty content. -/
theorem traf_some_ne (env : Env) (u : String) {c : String}
    (h : (extractWithTrafilatura env u).1.1 = some c) : c ≠ "" := by
  unfold extractWithTrafilatura at h
  dsimp only at h
  split at h
  · split at h
    · exact Option.noConfusion h
    · split at h
      · rename_i j hjson
        injection h with h1
        subst h1
        split at hjson
        · exact extractFromJsonLd_some_ne env _ hjson
        · cases hjson
      · split at h
        · repeat' split at h
          all_goals first
            | exact Option.noConfusion h
            | exact trafAfterHtml_some_ne env _ _ _ _ _ _ h
        · exact trafAfterHtml_some_ne env _ _ _ _ _ _ h
  · repeat' split at h
    all_goals first
      | exact Option.noConfusion h
      | exact trafAfterHtml_some_ne env _ _ _ _ _ _ h

/-- The newspaper3k download path only returns nonempty content. -/
theorem npDownload_some_ne (env : Env) (a b o : String) (m : Bool)
    (fx : List Effect) {c : String}
    (h : (npDownload env a b o m fx).1.1 = some c) : c ≠ "" := by
  unfold npDownload at h
  dsimp only at h
  repeat' split at h
  all_goals first
    | exact Option.noConfusion h
    | exact npValidate_some_ne _ _ h

/-- The newspaper3k main stage only returns nonempty content. -/
theorem npStage2_some_ne (env : Env) (ho : Option String) (a b o : String)
    (m : Bool) (fx : List Effect) {c : String}
    (h : (npStage2 env ho a b o m fx).1.1 = some c) : c ≠ "" := by
  unfold npStage2 at h
  dsimp only at h
  repeat' split at h
  all_goals first
    | exact Option.noConfusion h
    | exact npValidate_some_ne _ _ h
    | exact npDownload_some_ne env _ _ _ _ _ h

/-- The Medium re-fetch path only returns nonempty content. -/
theorem npMediumRefetch_some_ne (env : Env) (a b o t : String)
    (fx : List Effect) {c : String}
    (h : (npMediumRefetch env a b o t fx).1.1 = some c) : c ≠ "" := by
  unfold npMediumRefetch at h
  dsimp only at h
  repeat' split at h
  all_goals first
    | exact Option.noConfusion h
    | exact npStage2_some_ne env _ _ _ _ _ _ h

/-- The newspaper3k strategy only returns nonempty content. -/
theorem np_some_ne (env : Env) (u : String) {c : String}
    (h : (extractWithNewspaper env u).1.1 = some c) : c ≠ "" := by
  unfold extractWithNewspaper at h
  dsimp only at h
  repeat' split at h
  all_goals first
    | exact Option.noConfusion h
    | exact npStage2_some_ne env _ _ _ _ _ _ h
    | exact npMediumRefetch_some_ne env _ _ _ _ _ h


/-!  ## State lemmas for the dispatch layer -/

/-- The post-pattern chain bumps total_attempts by exactly one. -/
theorem afterPattern_ta (env : Env) (s : St) (o u : String) (w : Bool) :
    ((afterPattern env s o u w).1.2).metrics.totalAttempts =
      s.metrics.totalAttempts + 1 := by
  unfold afterPattern
  dsimp only
  repeat' split
  all_goals rfl

/-- Result/state characterization of the post-pattern chain: success keeps
the failure cache unchanged and returns nonempty content; failure returns
`(None, originalUrl)` and caches the original URL. -/
theorem afterPattern_cases (env : Env) (s : St) (o u : String) (w : Bool) :
    (∃ c r, (afterPattern env s o u w).1.1 = (some c, r) ∧ c ≠ "" ∧
       ((afterPattern env s o u w).1.2).failedUrls = s.failedUrls) ∨
    ((afterPattern env s o u w).1.1 = (none, o) ∧
       ((afterPattern env s o u w).1.2).failedUrls = o :: s.failedUrls) := by
  unfold afterPattern
  dsimp only
  split
  · split
    · rename_i c hc
      exact Or.inl ⟨c, u, rfl, extractPdf_some_ne env u hc, rfl⟩
    · exact Or.inr ⟨rfl, rfl⟩
  · split
    · rename_i c hc
      exact Or.inl ⟨c, _, rfl, traf_some_ne env u hc, rfl⟩
    · split
      · rename_i c hc
        exact Or.inl ⟨c, _, rfl, np_some_ne env u hc, rfl⟩
      · exact Or.inr ⟨rfl, rfl⟩

/-- A dispatch that returns bumps total_attempts by at least one. -/
theorem dispatch_ta (env : Env) (s : St) (o u : String) (w : Bool)
    (st : (Option String × String) × St)
    (h : (dispatchAndExtract env s o u w).1 = .ok st) :
    st.2.metrics.totalAttempts ≥ s.metrics.totalAttempts + 1 := by
  unfold dispatchAndExtract at h
  dsimp only at h
  split at h
  · cases h
  · injection h with h1
    subst h1
    rw [afterPattern_ta]
  · split at h
    · injection h with h1
      subst h1
      rw [afterPattern_ta]
    · injection h with h1
      subst h1
      rw [afterPattern_ta]
    · split at h
      · split at h
        · injection h with h1
          subst h1
          rw [afterPattern_ta]
          dsimp [bumpSuccess]
          omega
        · injection h with h1
          subst h1
          dsimp [bumpSuccess]
          omega
      · injection h with h1
        subst h1
        rw [afterPattern_ta]

/-- Result/state characterization of a dispatch that returns: success keeps
the failure cache unchanged; failure returns `(None, originalUrl)` and
caches the original URL. -/
theorem dispatch_cases (env : Env) (s : St) (o u : String) (w : Bool)
    (st : (Option String × String) × St)
    (h : (dispatchAndExtract env s o u w).1 = .ok st) :
    (∃ c, st.1.1 = some c ∧ c ≠ "" ∧ st.2.failedUrls = s.failedUrls) ∨
    (st.1 = (none, o) ∧ st.2.failedUrls = o :: s.failedUrls) := by
  have hap : ∀ (s2 : St), s2.failedUrls = s.failedUrls →
      st = (afterPattern env s2 o (convertArxivToPdf u) w).1 →
      (∃ c, st.1.1 = some c ∧ c ≠ "" ∧ st.2.failedUrls = s.failedUrls) ∨
      (st.1 = (none, o) ∧ st.2.failedUrls = o :: s.failedUrls) := by
    intro s2 hs2 hst
    subst hst
    rcases afterPattern_cases env s2 o (convertArxivToPdf u) w with
      ⟨c, r, hcr, hcne, hf⟩ | ⟨hn, hf⟩
    · exact Or.inl ⟨c, by rw [hcr], hcne, by rw [hf, hs2]⟩
    · exact Or.inr ⟨hn, by rw [hf, hs2]⟩
  unfold dispatchAndExtract at h
  dsimp only at h
  cases hg : getHandlerE s.registry (convertArxivToPdf u) with
  | error e =>
    rw [hg] at h
    cases h
  | ok r =>
    rw [hg] at h
    cases r with
    | none =>
      dsimp only at h
      injection h with h1
      exact hap _ rfl h1.symm
    | some p =>
      obtain ⟨n, hid⟩ := p
      dsimp only at h
      cases hr : (runHandler env hid n (convertArxivToPdf u)).1 with
      | error e2 =>
        rw [hr] at h
        dsimp only at h
        injection h with h1
        exact hap _ rfl h1.symm
      | ok copt =>
        rw [hr] at h
        cases copt with
        | none =>
          dsimp only at h
          injection h with h1
          exact hap _ rfl h1.symm
        | some c =>
          dsimp only at h
          split at h
          · rename_i hcond
            split at h
            · injection h with h1
              exact hap { s with metrics := bumpSuccess s.metrics } rfl h1.symm
            · injection h with h1
              subst h1
              simp only [Bool.and_eq_true, decide_eq_true_eq] at hcond
              exact Or.inl ⟨c, rfl, hcond.1, rfl⟩
          · injection h with h1
            exact hap _ rfl h1.symm

/-!  ## Extract-level lemmas -/

/-- A cached URL short-circuits: no effects, result `(None, url)`, only the
cached-failures counter moves. -/
theorem extract_cached (env : Env) (s : St) (u : String)
    (h : s.failedUrls.contains u = true) :
    extract env s u =
      (.ok ((none, u),
        { s with metrics := { s.metrics with
            cachedFailures := s.metrics.cachedFailures + 1 } }), []) := by
  unfold extract
  dsimp only
  rw [if_pos h]

/-- A returned `None` content always reports the input URL and leaves it in
the failure cache. -/
theorem extract_none_cached (env : Env) (s : St) (u : String)
    (st : (Option String × String) × St)
    (h : (extract env s u).1 = .ok st) (hnone : st.1.1 = none) :
    st.1.2 = u ∧ st.2.failedUrls.contains u = true := by
  unfold extract at h
  dsimp only at h
  split at h
  · rename_i hcached
    injection h with h1
    subst h1
    exact ⟨rfl, hcached⟩
  · split at h
    · cases h
    · split at h
      · split at h
        · rcases dispatch_cases env s u _ true st h with
            ⟨c, hc, _, _⟩ | ⟨hn, hf⟩
          · rw [hnone] at hc; cases hc
          · constructor
            · rw [show st.1.2 = (st.1).2 from rfl, hn]
            · rw [hf]; simp
        · injection h with h1
          subst h1
          refine ⟨rfl, by simp⟩
      · rcases dispatch_cases env s u u false st h with
          ⟨c, hc, _, _⟩ | ⟨hn, hf⟩
        · rw [hnone] at hc; cases hc
        · constructor
          · rw [show st.1.2 = (st.1).2 from rfl, hn]
          · rw [hf]; simp

/-- The full behavior of `extract` on a Lemmy URL whose resolution fails
(source lines 283-293): result `(None, originalUrl)`, the original URL
cached, the failures counter bumped, and only the resolution effects. -/
theorem extract_lemmy_fail (env : Env) (s : St) (u : String)
    (hc : s.failedUrls.contains u = false)
    (hl : isLemmyUrlE u = .ok true)
    (hd : (lemmyDestination env u).1 = none) :
    extract env s u =
      (.ok ((none, u),
        { s with failedUrls := u :: s.failedUrls,
                 metrics := { s.metrics with
                   failures := s.metrics.failures + 1 } }),
       (lemmyDestination env u).2) := by
  unfold extract
  dsimp only
  rw [if_neg (by rw [hc]; simp), hl]
  dsimp only
  rw [if_pos rfl, hd]

/-- Lemmy resolution touches the network only. -/
theorem lemmyDestination_net (env : Env) (u : String) :
    NetOnly (lemmyDestination env u).2 := by
  intro e he
  unfold lemmyDestination at he
  dsimp only at he
  repeat' split at he
  all_goals first
    | cases he
    | exact httpGet_effects_net env _ e he

/-!  ## Claim C2: failure-cache idempotence -/

/-- C2: if a call to `extract` returns `None` content, the reported URL is
the input URL and it is in the failure cache of the returned state, so a
second call with any environment performs no effects at all (in particular
zero network requests) and returns `(None, u)`, bumping only the
cached-failures counter. -/
theorem extract_failure_cache_idempotent (env env2 : Env) (s : St)
    (u : String) (res : (Option String × String) × St)
    (hres : (extract env s u).1 = .ok res) (hnone : res.1.1 = none) :
    res.1.2 = u ∧
    extract env2 res.2 u =
      (.ok ((none, u),
        { res.2 with metrics := { res.2.metrics with
            cachedFailures := res.2.metrics.cachedFailures + 1 } }), []) := by
  obtain ⟨h1, h2⟩ := extract_none_cached env s u res hres hnone
  exact ⟨h1, extract_cached env2 res.2 u h2⟩

/-- Witness for C2: in the no-network environment the URL "x" fails every
strategy, and the second call is answered from the cache with an empty
effect log. -/
theorem extract_failure_cache_idempotent_witness :
    (extract envTrivial initSt "x").1 = .ok ((none, "x"), stFail) ∧
    extract envTrivial stFail "x" =
      (.ok ((none, "x"),
        { stFail with metrics := { stFail.metrics with
            cachedFailures := stFail.metrics.cachedFailures + 1 } }), []) :=
  ⟨by decide,
   (extract_failure_cache_idempotent envTrivial envTrivial initSt "x"
      ((none, "x"), stFail) (by decide) (by decide)).2⟩

/-!  ## Claim C6: failed Lemmy resolution is terminal -/

/-- C6: for a Lemmy URL whose destination cannot be resolved, `extract`
terminates immediately with `(None, originalUrl)`, the original URL is in
the failure cache of the returned state, and no extraction strategy (pattern
handler, PDF, trafilatura or newspaper3k) is ever run — the only effects are
the network requests of the resolution attempt itself. -/
theorem lemmy_resolution_failure_terminal (env : Env) (s : St) (u : String)
    (hc : s.failedUrls.contains u = false)
    (hl : isLemmyUrlE u = .ok true)
    (hd : (lemmyDestination env u).1 = none) :
    extract env s u =
      (.ok ((none, u),
        { s with failedUrls := u :: s.failedUrls,
                 metrics := { s.metrics with
                   failures := s.metrics.failures + 1 } }),
       (lemmyDestination env u).2) ∧
    ∀ e ∈ (extract env s u).2, e.isStrategyRun = false := by
  have heq := extract_lemmy_fail env s u hc hl hd
  refine ⟨heq, ?_⟩
  intro e he
  rw [heq] at he
  have hn := lemmyDestination_net env u e he
  cases e <;> simp_all [Effect.isNet, Effect.isStrategyRun]

/-- Witness for C6 at a concrete Lemmy post URL whose API request fails. -/
theorem lemmy_resolution_failure_terminal_witness :
    extract envTrivial initSt "https://lemmy.world/post/9" =
      (.ok ((none, "https://lemmy.world/post/9"),
        { initSt with
            failedUrls := "https://lemmy.world/post/9" :: initSt.failedUrls,
            metrics := { initSt.metrics with
              failures := initSt.metrics.failures + 1 } }),
       (lemmyDestination envTrivial "https://lemmy.world/post/9").2) ∧
    ∀ e ∈ (extract envTrivial initSt "https://lemmy.world/post/9").2,
      e.isStrategyRun = false :=
  lemmy_resolution_failure_terminal envTrivial initSt
    "https://lemmy.world/post/9" (by decide) (by decide) (by decide)

/-!  ## Claim C9: total_attempts accounting -/

/-- C9 counterexample: a call answered from the failure cache does not move
total_attempts at all, though the claim says every call increments it. -/
theorem cached_call_total_attempts_unchanged :
    cachedSt.metrics.totalAttempts = 0 ∧
    (extract envTrivial cachedSt "http://cached.example/a").1 =
      .ok ((none, "http://cached.example/a"),
        { cachedSt with metrics := { cachedSt.metrics with
            cachedFailures := cachedSt.metrics.cachedFailures + 1 } }) ∧
    ¬(({ cachedSt with metrics := { cachedSt.metrics with
            cachedFailures := cachedSt.metrics.cachedFailures + 1 } } :
        St).metrics.totalAttempts ≥ cachedSt.metrics.totalAttempts + 1) := by
  exact ⟨rfl, by decide, by decide⟩

/-- C9 (amended): total_attempts grows by at least one exactly on the calls
that reach strategy dispatch; a call answered from the failure cache bumps
only cached_failures, and a call that fails Lemmy resolution bumps only
failures, leaving total_attempts unchanged in both cases. -/
theorem total_attempts_characterization :
    (∀ (env : Env) (s : St) (u : String) (b : Bool)
       (st : (Option String × String) × St),
       s.failedUrls.contains u = false →
       isLemmyUrlE u = .ok b →
       (b = true → (lemmyDestination env u).1.isSome = true) →
       (extract env s u).1 = .ok st →
       st.2.metrics.totalAttempts ≥ s.metrics.totalAttempts + 1) ∧
    (∀ (env : Env) (s : St) (u : String),
       s.failedUrls.contains u = true →
       extract env s u =
         (.ok ((none, u),
           { s with metrics := { s.metrics with
               cachedFailures := s.metrics.cachedFailures + 1 } }), [])) ∧
    (∀ (env : Env) (s : St) (u : String),
       s.failedUrls.contains u = false →
       isLemmyUrlE u = .ok true →
       (lemmyDestination env u).1 = none →
       extract env s u =
         (.ok ((none, u),
           { s with failedUrls := u :: s.failedUrls,
                    metrics := { s.metrics with
                      failures := s.metrics.failures + 1 } }),
          (lemmyDestination env u).2)) := by
  refine ⟨?_, ?_, ?_⟩
  · intro env s u b st hc hb hsome h
    unfold extract at h
    dsimp only at h
    rw [if_neg (by rw [hc]; simp), hb] at h
    cases b
    · dsimp only at h
      exact dispatch_ta env s u u false st h
    · have hs := hsome rfl
      cases hdd : (lemmyDestination env u).1 with
      | none => rw [hdd] at hs; cases hs
      | some d =>
        dsimp only at h
        rw [hdd] at h
        dsimp only at h
        exact dispatch_ta env s u d true st h
  · intro env s u hc
    exact extract_cached env s u hc
  · intro env s u hc hl hd
    exact extract_lemmy_fail env s u hc hl hd

/-- Witness for C9: a dispatch-reaching call moves total_attempts from 0 to
at least 1, a cached call moves only cached_failures, and a Lemmy-failure
call moves only failures. -/
theorem total_attempts_characterization_witness :
    stFail.metrics.totalAttempts ≥ initSt.metrics.totalAttempts + 1 ∧
    extract envTrivial cachedSt "http://cached.example/a" =
      (.ok ((none, "http://cached.example/a"),
        { cachedSt with metrics := { cachedSt.metrics with
            cachedFailures := cachedSt.metrics.cachedFailures + 1 } }), []) ∧
    extract envTrivial initSt "https://lemmy.world/post/9" =
      (.ok ((none, "https://lemmy.world/post/9"),
        { initSt with
            failedUrls := "https://lemmy.world/post/9" :: initSt.failedUrls,
            metrics := { initSt.metrics with
              failures := initSt.metrics.failures + 1 } }),
       (lemmyDestination envTrivial "https://lemmy.world/post/9").2) :=
  ⟨total_attempts_characterization.1 envTrivial initSt "x" false
      ((none, "x"), stFail) (by decide) (by decide) (by simp) (by decide),
   total_attempts_characterization.2.1 envTrivial cachedSt
      "http://cached.example/a" (by decide),
   total_attempts_characterization.2.2 envTrivial initSt
      "https://lemmy.world/post/9" (by decide) (by decide) (by decide)⟩

/-!  ## Parse success and the no-raise property (claim C1) -/

/-- The modelled parser fails only on a bracket in the authority, so any URL
whose text has no square bracket parses successfully. -/
theorem pyUrlparse_ok_of_no_brackets (url : String)
    (h1 : '[' ∉ url.toList) (h2 : ']' ∉ url.toList) :
    (pyUrlparse url).isOk = true := by
  unfold pyUrlparse
  dsimp only
  split
  · rename_i tail heq
    split
    · rename_i hbr
      exfalso
      have hmem : ∀ c : Char,
          c ∈ (tail.takeWhile fun c => c != '/' && c != '?' && c != '#') →
          c ∈ url.toList := by
        intro c hcm
        have h3 : c ∈ tail := (List.takeWhile_prefix _).subset hcm
        have h4 : c ∈ ('/' :: '/' :: tail) := by simp [h3]
        rw [← heq] at h4
        split at h4
        · have h5 := List.drop_subset _ _ h4
          exact List.mem_of_mem_filter h5
        · exact List.mem_of_mem_filter h4
      simp only [Bool.or_eq_true] at hbr
      rcases hbr with hbr | hbr
      · exact h1 (hmem '[' (by simpa using hbr))
      · exact h2 (hmem ']' (by simpa using hbr))
    · rfl
  · rfl

/-- A successful parse makes the pattern matcher total. -/
theorem matchesE_ok (p : ExtractionPattern) (url : String)
    (h : (pyUrlparse url).isOk = true) : ∃ b, p.matchesE url = .ok b := by
  unfold ExtractionPattern.matchesE
  cases hp : pyUrlparse url with
  | error e => rw [hp] at h; cases h
  | ok parts => exact ⟨_, rfl⟩

/-- A successful parse makes registry lookup total. -/
theorem getHandlerE_ok (ps : List ExtractionPattern) (url : String)
    (h : (pyUrlparse url).isOk = true) : ∃ r, getHandlerE ps url = .ok r := by
  induction ps with
  | nil => exact ⟨none, rfl⟩
  | cons p rest ih =>
    obtain ⟨b, hb⟩ := matchesE_ok p url h
    unfold getHandlerE
    rw [hb]
    cases b
    · exact ih
    · exact ⟨some (p.name, p.handler), rfl⟩

/-- A successful parse makes the Lemmy test total. -/
theorem isLemmyUrlE_ok (url : String) (h : (pyUrlparse url).isOk = true) :
    ∃ b, isLemmyUrlE url = .ok b := by
  unfold isLemmyUrlE
  cases hp : pyUrlparse url with
  | error e => rw [hp] at h; cases h
  | ok parts => exact ⟨_, rfl⟩

/-- The Lemmy test succeeds only on URLs that parse. -/
theorem isLemmyUrlE_parse_ok {url : String} {b : Bool}
    (h : isLemmyUrlE url = .ok b) : (pyUrlparse url).isOk = true := by
  unfold isLemmyUrlE at h
  cases hp : pyUrlparse url with
  | error e =>
    rw [hp] at h
    cases h
  | ok parts => rfl

/-- Characters of the membership split for the constructed PDF URL. -/
theorem mk_append_chars {d1 d2 : List Char} {c : Char}
    (hc : c ∈ (String.mk d1 ++ "." ++ String.mk d2).toList) :
    c ∈ d1 ∨ c = '.' ∨ c ∈ d2 := by
  have hl : (String.mk d1 ++ "." ++ String.mk d2).toList = d1 ++ ('.' :: d2) := by
    simp [String.toList, String.data_append]
  rw [hl] at hc
  have h0 : c ∈ d1 ++ ('.' :: d2) := hc
  rcases List.mem_append.mp h0 with h | h
  · exact Or.inl h
  · rcases List.mem_cons.mp h with h | h
    · exact Or.inr (Or.inl h)
    · exact Or.inr (Or.inr h)

/-- The captured arXiv identifier consists of digits and one dot. -/
theorem arxivAbsId_chars (u : String) (pid : String)
    (h : arxivAbsId u = some pid) :
    ∀ c ∈ pid.toList, c.isDigit = true ∨ c = '.' := by
  unfold arxivAbsId at h
  dsimp only at h
  repeat' split at h
  all_goals first
    | exact Option.noConfusion h
    | (injection h with h1
       subst h1
       intro c hcm
       rcases mk_append_chars hcm with h3 | h3 | h3
       · exact Or.inl (List.mem_takeWhile_imp h3)
       · exact Or.inr h3
       · exact Or.inl (List.mem_takeWhile_imp h3))

/-- A character that is no digit, not a dot, and occurs in neither literal
part does not occur in the constructed PDF URL. -/
theorem no_char_in_pdf_url (pid : String)
    (hdig : ∀ x ∈ pid.toList, x.isDigit = true ∨ x = '.') (c : Char)
    (hc1 : c.isDigit = false) (hc2 : c ≠ '.')
    (hc3 : c ∉ ("https://arxiv.org/pdf/").toList)
    (hc4 : c ∉ (".pdf").toList) :
    c ∉ ("https://arxiv.org/pdf/" ++ pid ++ ".pdf").toList := by
  intro hmem
  have h2 : c ∈ (("https://arxiv.org/pdf/").toList ++ pid.toList) ++
      (".pdf").toList := hmem
  rcases List.mem_append.mp h2 with h3 | h3
  · rcases List.mem_append.mp h3 with h4 | h4
    · exact hc3 h4
    · rcases hdig c h4 with h5 | h5
      · rw [h5] at hc1; cases hc1
      · exact hc2 h5
  · exact hc4 h3

/-- The arXiv rewrite preserves parse success. -/
theorem convert_parse_ok (u : String) (h : (pyUrlparse u).isOk = true) :
    (pyUrlparse (convertArxivToPdf u)).isOk = true := by
  unfold convertArxivToPdf
  cases ha : arxivAbsId u with
  | none => exact h
  | some pid =>
    dsimp only
    exact pyUrlparse_ok_of_no_brackets _
      (no_char_in_pdf_url pid (arxivAbsId_chars u pid ha) '[' (by decide)
        (by decide) (by decide) (by decide))
      (no_char_in_pdf_url pid (arxivAbsId_chars u pid ha) ']' (by decide)
        (by decide) (by decide) (by decide))

/-- A resolved Lemmy destination always parses (it went through the Lemmy
test without raising). -/
theorem lemmyDestination_some_parse_ok (env : Env) (u d : String)
    (h : (lemmyDestination env u).1 = some d) :
    (pyUrlparse d).isOk = true := by
  unfold lemmyDestination at h
  dsimp only at h
  repeat' split at h
  all_goals try cases h
  all_goals
    (rename_i heq
     repeat' split at heq
     all_goals first
       | exact Option.noConfusion heq
       | (rename_i hfalse
          injection heq with h2
          subst h2
          exact isLemmyUrlE_parse_ok hfalse))

/-- Dispatch never raises when the (converted) URL parses. -/
theorem dispatch_isOk (env : Env) (s : St) (o u : String) (w : Bool)
    (h : (pyUrlparse (convertArxivToPdf u)).isOk = true) :
    (dispatchAndExtract env s o u w).1.isOk = true := by
  obtain ⟨r, hr⟩ := getHandlerE_ok s.registry (convertArxivToPdf u) h
  unfold dispatchAndExtract
  dsimp only
  rw [hr]
  cases r with
  | none => rfl
  | some p =>
    obtain ⟨n, hid⟩ := p
    dsimp only
    cases (runHandler env hid n (convertArxivToPdf u)).1 with
    | error e => rfl
    | ok copt =>
      cases copt with
      | none => rfl
      | some c =>
        dsimp only
        split
        · split
          · rfl
          · rfl
        · rfl

/-!  ## Claim C1: `extract` never raises -/

/-- C1 counterexample: the claim quantifies over every input URL string, but
`extract` calls `urlparse` outside any handler (source line 284 via
`_is_lemmy_url`), and `urlparse` raises ValueError for an authority with a
mismatched square bracket — the exception escapes to the caller. -/
theorem extract_raises_on_invalid_ipv6_url :
    extract envTrivial initSt "http://[" =
      (.error (.valueError "Invalid IPv6 URL"), []) := by decide

/-- C1 (amended): for every input URL that the URL parser accepts (any URL
without a square bracket in its text, in particular), `extract` never
raises, whatever the environment does — handler exceptions, fetch failures
and resolution failures included — and a returned content string is
nonempty. -/
theorem extract_no_raise_on_parseable_url (env : Env) (s : St) (u : String)
    (hp : (pyUrlparse u).isOk = true) :
    (extract env s u).1.isOk = true ∧
    ∀ st, (extract env s u).1 = .ok st → ∀ c, st.1.1 = some c → c ≠ "" := by
  constructor
  · unfold extract
    dsimp only
    split
    · rfl
    · obtain ⟨b, hb⟩ := isLemmyUrlE_ok u hp
      rw [hb]
      cases b
      · dsimp only
        exact dispatch_isOk env s u u false (convert_parse_ok u hp)
      · dsimp only
        cases hld : (lemmyDestination env u).1 with
        | none => rfl
        | some d =>
          dsimp only
          exact dispatch_isOk env s u d true
            (convert_parse_ok d (lemmyDestination_some_parse_ok env u d hld))
  · intro st hst c hc
    have hgen : ∀ (o2 u2 : String) (w2 : Bool),
        (dispatchAndExtract env s o2 u2 w2).1 = .ok st → c ≠ "" := by
      intro o2 u2 w2 hd
      rcases dispatch_cases env s o2 u2 w2 st hd with
        ⟨c2, hc2, hne2, _⟩ | ⟨hn, _⟩
      · rw [hc] at hc2
        injection hc2 with h2
        exact h2 ▸ hne2
      · have hz : st.1.1 = none := by rw [show st.1.1 = (st.1).1 from rfl, hn]
        rw [hc] at hz
        cases hz
    unfold extract at hst
    dsimp only at hst
    split at hst
    · injection hst with h1
      subst h1
      cases hc
    · split at hst
      · cases hst
      · split at hst
        · split at hst
          · exact hgen _ _ _ hst
          · injection hst with h1
            subst h1
            cases hc
        · exact hgen _ _ _ hst

/-- Witness for C1 at a parseable URL in the no-network environment. -/
theorem extract_no_raise_on_parseable_url_witness :
    (pyUrlparse "http://ok.example/a").isOk = true ∧
    (extract envTrivial initSt "http://ok.example/a").1.isOk = true :=
  ⟨by decide, (extract_no_raise_on_parseable_url envTrivial initSt
      "http://ok.example/a" (by decide)).1⟩

/-!  ## Claim C10: the post-reset KeyError at the pattern-usage record -/

/-- C10 counterexample: after `reset_metrics`, a document URL matched by the
built-in PDF pattern whose handler returns 600 characters does hit the
KeyError at source line 310 and does leave `total_attempts` incremented
twice — but the fall-through lands in the legacy document check of line
321, not in the generic trafilatura/newspaper chain: the very same PDF
strategy runs a second time and its content is returned, and no trafilatura
run appears in the effect log, contradicting the claim that extract falls
through to the generic chain instead of returning content. -/
theorem reset_keyerror_document_url_still_returns_content :
    (extract (envPdf 600) resetSt "http://e/x.pdf").1 =
      .ok ((some (String.mk (List.replicate 600 'a')), "http://e/x.pdf"),
           ⟨[], ⟨2, 2, 0, 0, 0, none⟩, defaultRegistry⟩) ∧
    (extract (envPdf 600) resetSt "http://e/x.pdf").2 =
      [.handlerCall "pdf" "http://e/x.pdf", .pdfRun "http://e/x.pdf",
       .netRequest "http://e/x.pdf" true, .pdfRun "http://e/x.pdf",
       .netRequest "http://e/x.pdf" true] := by decide

/-- C10 (amended): when the metrics lack the pattern-usage key (the state
`reset_metrics` leaves behind) and the matched pattern handler returns
content above the 100-character threshold, the recording step raises
KeyError after `total_attempts` and `trafilatura_success` have already been
incremented; the dispatch boundary catches it and control falls through to
the post-pattern chain (the legacy document check first, the generic
trafilatura/newspaper chain only for non-document URLs) on the
already-incremented metrics, so the handler content is discarded and
`total_attempts` ends exactly two higher than before the call. -/
theorem reset_metrics_keyerror_fallthrough (env : Env) (s : St)
    (o u : String) (w : Bool) (n : String) (hid : HandlerId) (c : String)
    (hpe : s.metrics.patternExtractions = none)
    (hg : getHandlerE s.registry (convertArxivToPdf u) = .ok (some (n, hid)))
    (hr : (runHandler env hid n (convertArxivToPdf u)).1 = .ok (some c))
    (hcne : c ≠ "") (hlen : sLength (pyStrip c) > 100) :
    dispatchAndExtract env s o u w =
      (.ok (afterPattern env { s with metrics := bumpSuccess s.metrics } o
              (convertArxivToPdf u) w).1,
       (runHandler env hid n (convertArxivToPdf u)).2 ++
         (afterPattern env { s with metrics := bumpSuccess s.metrics } o
            (convertArxivToPdf u) w).2) ∧
    (∀ st, (dispatchAndExtract env s o u w).1 = .ok st →
      st.2.metrics.totalAttempts = s.metrics.totalAttempts + 2) := by
  have hpe2 : (bumpSuccess s.metrics).patternExtractions = none := by
    simpa [bumpSuccess] using hpe
  have hmain : dispatchAndExtract env s o u w =
      (.ok (afterPattern env { s with metrics := bumpSuccess s.metrics } o
              (convertArxivToPdf u) w).1,
       (runHandler env hid n (convertArxivToPdf u)).2 ++
         (afterPattern env { s with metrics := bumpSuccess s.metrics } o
            (convertArxivToPdf u) w).2) := by
    unfold dispatchAndExtract
    dsimp only
    rw [hg]
    dsimp only
    rw [hr]
    dsimp only
    split
    · rw [hpe2]
    · rename_i hfc
      exfalso
      apply hfc
      simp [hcne, hlen]
  refine ⟨hmain, ?_⟩
  intro st hst
  rw [hmain] at hst
  dsimp only at hst
  injection hst with h1
  subst h1
  rw [afterPattern_ta]
  dsimp only [bumpSuccess]

/-- Witness for C10 at the concrete post-reset PDF scenario. -/
theorem reset_metrics_keyerror_fallthrough_witness :
    resetSt.metrics.patternExtractions = none ∧
    ∀ st, (dispatchAndExtract (envPdf 600) resetSt "http://e/x.pdf"
        "http://e/x.pdf" false).1 = .ok st →
      st.2.metrics.totalAttempts = resetSt.metrics.totalAttempts + 2 :=
  ⟨by decide,
   (reset_metrics_keyerror_fallthrough (envPdf 600) resetSt "http://e/x.pdf"
      "http://e/x.pdf" false "pdf" HandlerId.pdfPat
      (String.mk (List.replicate 600 'a'))
      (by decide) (by decide) (by decide) (by decide) (by decide)).2⟩

/-!  ## Claim C4: the Lemmy HTML fallback -/

/-- C4 (code bug): the Lemmy read API for post 123 is unreachable and the
post page itself carries an external-link anchor pointing at the true
destination, yet the resolver returns None and logs exactly one network
request — the failed API call.  The HTML fallback block of source lines
728-767 begins by reading the unbound local name `headers` at line 732, so
entering it raises NameError before the page fetch, and the enclosing
`except Exception` at line 769 turns that into None.  The second conjunct
checks the separately modelled, currently unreachable scrape of lines
733-767: run on the same page it would have produced the external link the
claim promises. -/
theorem lemmy_html_fallback_dead_code :
    lemmyDestination envLemmyC4 "https://lemmy.world/post/123" =
      (none, [.netRequest "https://lemmy.world/api/v3/post?id=123" true]) ∧
    (lemmyHtmlScrape envLemmyC4 "https://lemmy.world/post/123").1 =
      .ok (some "https://example.com/article") := by decide

end PyDigestor
